import Mathlib

/-!
# Verification of the attendance punch reconciliation engine

Shallow embedding of the `hr_attendance_gateway` module's reconciliation
core: `services/processor.py` (batch processing, toggle and slot modes,
auto-close of stale sessions), `models/hr_attendance.py` (`_compute_status`),
`models/attendance_punch_slot.py` (`is_time_in_window`),
`models/attendance_shift.py` (`get_shift_boundaries`) and
`models/attendance_raw_log.py` (`action_reprocess`).

Modelling conventions:
* Timestamps are rationals counting seconds since the epoch (naive UTC, as
  stored by the ORM).  Float-valued policy parameters become rationals.
* The database is an explicit record of raw-log and attendance rows; ORM
  `search`/`create`/`write` calls become pure list operations threaded
  through each function.
* Timezones are modelled as fixed offsets (seconds east of UTC); the engine
  is only exercised with fixed-offset zones here.
* Python `int()` truncation, `str.strip()`, `str.count(sub)` and
  `sub in s` are given faithful executable models below.
* Identity resolution (device-user mapping, badge lookup) and the
  employee→shift policy lookup are external collaborators per the spec;
  they are abstracted as function parameters in `Ctx`.
* Numeric renderings inside human-readable log messages use `toString` on
  rationals where Python formats floats; the textual rendering of numbers
  is immaterial to every verified property.
-/

/-- Python `int()` truncation toward zero on a rational. -/
def pyTrunc (q : ℚ) : ℤ :=
  if 0 ≤ q then ⌊q⌋ else -⌊-q⌋

/-- Whether one character list is a prefix of another (`str.startswith`). -/
def strPrefixOf : List Char → List Char → Bool
  | [], _ => true
  | _ :: _, [] => false
  | a :: as, b :: bs => a == b && strPrefixOf as bs

/-- Python `s.count(pat)`: number of non-overlapping occurrences of `pat`,
scanning left to right. -/
def countOccAux (pat : List Char) : List Char → Nat
  | [] => 0
  | c :: rest =>
    if strPrefixOf pat (c :: rest) then
      1 + countOccAux pat (List.drop (pat.length - 1) rest)
    else
      countOccAux pat rest
termination_by s => s.length
decreasing_by
  · simp only [List.length_cons, List.length_drop]; omega
  · simp only [List.length_cons]; omega

/-- Python `s.count(pat)` on strings. -/
def countOcc (pat s : String) : Nat := countOccAux pat.toList s.toList

/-- Python `pat in s` (substring containment). -/
def containsStr (s pat : String) : Bool := decide (pat.toList <:+: s.toList)

/-- Lower-cased character list, for case-insensitive containment. -/
def lowerChars (l : List Char) : List Char := l.map Char.toLower

/-- Case-insensitive substring containment. -/
def containsInsensitive (s pat : String) : Bool :=
  decide (lowerChars pat.toList <:+: lowerChars s.toList)

/-- Python `str.strip()`: drop leading and trailing whitespace. -/
def pyStrip (s : String) : String :=
  ⟨((s.toList.dropWhile Char.isWhitespace).reverse.dropWhile
      Char.isWhitespace).reverse⟩

/-- Two-digit zero-padded rendering of a (small) natural number. -/
def pad2 (n : Nat) : String := (if n < 10 then "0" else "") ++ toString n

/-- `timestamp.strftime("%H:%M")` on a naive UTC timestamp in seconds. -/
def hhmm (t : ℚ) : String :=
  let s : ℤ := (⌊t⌋ : ℤ).emod 86400
  pad2 (s / 3600).toNat ++ ":" ++ pad2 ((s / 60) % 60).toNat

/-- `timestamp.time()` reduced to minutes of day (`hour*60 + minute`). -/
def minutesOfDay (t : ℚ) : ℤ := ((⌊t⌋ : ℤ).emod 86400) / 60

/-! ## Data model (`models/attendance_raw_log.py`, `models/hr_attendance.py`,
`models/attendance_shift.py`, `models/attendance_punch_slot.py`) -/

/-- `attendance.raw.log.state` selection. -/
inductive LogState
  | pending
  | processed
  | ignored
  | error
deriving DecidableEq, Repr

/-- `hr.attendance.status` selection. -/
inductive AttStatus
  | checked_in
  | on_time
  | late
  | early_leave
  | half_day
  | overtime
  | auto_closed
deriving DecidableEq, Repr

/-- A row of `attendance.raw.log`. -/
structure RawLog where
  id : Nat
  device_id : Nat
  device_user_id : String
  timestamp : ℚ
  punch_type : String := "0"
  state : LogState := .pending
  employee_id : Option Nat := none
  attendance_id : Option Nat := none
  message : Option String := none
  raw_data : String := ""
deriving DecidableEq, Repr

/-- A punch time slot (`attendance.punch.slot`). -/
structure PunchSlot where
  sequence : ℤ := 10
  punch_type : String
  time_from : ℚ
  time_to : ℚ
  active : Bool := true
deriving DecidableEq, Repr

/-- A shift policy (`attendance.shift`); the slot one2many is embedded by
value. -/
structure Shift where
  id : Nat
  work_hour_from : ℚ := 9
  work_hour_to : ℚ := 18
  late_after_minutes : ℤ := 15
  early_leave_before_minutes : ℤ := 15
  half_day_hours : ℚ := 4
  overtime_after_hours : ℚ := 8
  min_punch_gap_minutes : ℚ := 1
  auto_checkout_after_hours : ℚ := 16
  use_punch_slots : Bool := false
  punch_slot_ids : List PunchSlot := []
deriving DecidableEq, Repr

/-- `attendance.shift.is_night_shift` (computed: end before start). -/
def Shift.is_night_shift (s : Shift) : Bool := s.work_hour_to < s.work_hour_from

/-- A row of `hr.attendance`.  The `shift_id` many2one is embedded by value
(shift policies are never mutated by the engine). -/
structure Attendance where
  id : Nat
  employee_id : Nat
  check_in : ℚ
  check_out : Option ℚ := none
  device_id : Option Nat := none
  shift_id : Option Shift := none
  is_from_device : Bool := false
  note : String := ""
  break_minutes : ℤ := 0
  status : Option AttStatus := none
  late_minutes : ℤ := 0
  early_leave_minutes : ℤ := 0
  overtime_minutes : ℤ := 0
deriving DecidableEq, Repr

/-- The mutable database state threaded through the engine. -/
structure DB where
  rawLogs : List RawLog := []
  attendances : List Attendance := []
  nextLogId : Nat := 1
  nextAttId : Nat := 1
deriving DecidableEq, Repr

/-- External collaborators and per-device configuration, per the spec's
interfaces: the identity resolver and the policy store, plus the device
identity and its timezone (as a fixed offset in seconds east of UTC). -/
structure Ctx where
  deviceId : Nat
  tz : ℚ := 0
  resolve : String → Option Nat
  empShift : Nat → Option Shift

/-! ## Basic database operations -/

def findLog (db : DB) (id : Nat) : Option RawLog :=
  db.rawLogs.find? (fun l => l.id == id)

def findAtt (db : DB) (id : Nat) : Option Attendance :=
  db.attendances.find? (fun a => a.id == id)

/-- `raw_log.write(...)` on the row with the given id. -/
def updateLog (db : DB) (id : Nat) (f : RawLog → RawLog) : DB :=
  { db with rawLogs := db.rawLogs.map (fun l => if l.id == id then f l else l) }

/-- `attendance.write(...)` on the row with the given id. -/
def updateAtt (db : DB) (id : Nat) (f : Attendance → Attendance) : DB :=
  { db with attendances := db.attendances.map (fun a => if a.id == id then f a else a) }

/-- Whether an attendance row is the open session of employee `e`
(`employee_id = e` and `check_out = False`). -/
def openFor (e : Nat) (a : Attendance) : Bool :=
  a.employee_id == e && a.check_out.isNone

/-- `search([('employee_id','=',e), ('check_out','=',False)])`. -/
def openAttendances (db : DB) (e : Nat) : List Attendance :=
  db.attendances.filter (openFor e)

/-- `order='check_in desc', limit=1`: the open row with the latest
check-in (first-listed on ties). -/
def pickLatest : List Attendance → Option Attendance
  | [] => none
  | a :: as =>
    match pickLatest as with
    | none => some a
    | some b => if a.check_in < b.check_in then some b else some a

/-- The number of open sessions of employee `e`. -/
def openCount (db : DB) (e : Nat) : Nat := (openAttendances db e).length

/-- The central invariant: at most one open session per employee. -/
def OpenInv (db : DB) : Prop := ∀ e, openCount db e ≤ 1

/-! ## Status calculator (`hr_attendance.py::_compute_status`,
`attendance_shift.py::get_shift_boundaries`) -/

/-- Result of `attendance.shift.get_shift_boundaries` (naive-UTC datetimes
as rational seconds). -/
structure ShiftBoundaries where
  shift_start : ℚ
  shift_end : ℚ
  late_threshold : ℚ
  early_leave_threshold : ℚ
deriving DecidableEq, Repr

/-- `get_shift_boundaries(check_date, timezone)`: the expected shift
start/end for the (UTC) calendar date of `checkIn`, localized in the fixed
offset `tz` and converted back to naive UTC.  A night shift's end falls on
the next day. -/
def get_shift_boundaries (s : Shift) (checkIn : ℚ) (tz : ℚ) : ShiftBoundaries :=
  let day : ℤ := ⌊checkIn / 86400⌋
  let startH := pyTrunc s.work_hour_from
  let startMin := pyTrunc ((s.work_hour_from - startH) * 60)
  let shift_start : ℚ := (day : ℚ) * 86400 + (startH : ℚ) * 3600 + (startMin : ℚ) * 60 - tz
  let endH := pyTrunc s.work_hour_to
  let endMin := pyTrunc ((s.work_hour_to - endH) * 60)
  let endDay : ℚ := if s.is_night_shift then (day : ℚ) + 1 else (day : ℚ)
  let shift_end : ℚ := endDay * 86400 + (endH : ℚ) * 3600 + (endMin : ℚ) * 60 - tz
  { shift_start := shift_start,
    shift_end := shift_end,
    late_threshold := shift_start + (s.late_after_minutes : ℚ) * 60,
    early_leave_threshold := shift_end - (s.early_leave_before_minutes : ℚ) * 60 }

/-- The four fields written by `_compute_status`. -/
structure StatusResult where
  status : Option AttStatus
  late_minutes : ℤ := 0
  early_leave_minutes : ℤ := 0
  overtime_minutes : ℤ := 0
deriving DecidableEq, Repr

/-- `worked_hours` is the Odoo-core computed field on `hr.attendance`.
Modelled from the spec: "hours are computed as exact elapsed-seconds/3600
floats" (the field itself is inherited framework code, not in this repo). -/
def workedHoursOf (checkIn co : ℚ) : ℚ := (co - checkIn) / 3600

/-- `hr.attendance._compute_status` for one record: the status and the three
minute counters.  `es` is `attendance.shift.get_employee_shift` (the policy
store) used when the record carries no shift; `tz` is the record's device
timezone.  Minute arithmetic is modelled in exact rationals; CPython
evaluates the same expressions in IEEE-754 binary64, whose truncation via
`int()` can come out one lower than the exact value — see the overtime
divergence exhibited at the §8 scenario via `nearestDyadic`. -/
def statusFields (es : Nat → Option Shift) (tz : ℚ) (a : Attendance) : StatusResult :=
  match a.check_out with
  | none => { status := some .checked_in }
  | some co =>
    if containsStr a.note "Auto-closed" then { status := some .auto_closed }
    else
      match a.shift_id.orElse (fun _ => es a.employee_id) with
      | none => { status := some .on_time }
      | some s =>
        let b := get_shift_boundaries s a.check_in tz
        let worked := workedHoursOf a.check_in co
        let lateM : ℤ :=
          if b.late_threshold < a.check_in then
            pyTrunc (max 0 ((a.check_in - b.shift_start) / 60))
          else 0
        let earlyM : ℤ :=
          if co < b.early_leave_threshold then
            pyTrunc (max 0 ((b.shift_end - co) / 60))
          else 0
        let otM : ℤ :=
          if s.overtime_after_hours < worked then
            pyTrunc ((worked - s.overtime_after_hours) * 60)
          else 0
        let st : AttStatus :=
          if worked < s.half_day_hours then .half_day
          else if 0 < otM then .overtime
          else if 0 < lateM then .late
          else if 0 < earlyM then .early_leave
          else .on_time
        { status := some st, late_minutes := lateM,
          early_leave_minutes := earlyM, overtime_minutes := otM }

/-- Apply `_compute_status` to a record (it writes exactly the four computed
fields). -/
def computeStatusFor (es : Nat → Option Shift) (tz : ℚ) (a : Attendance) : Attendance :=
  let r := statusFields es tz a
  { a with status := r.status, late_minutes := r.late_minutes,
           early_leave_minutes := r.early_leave_minutes,
           overtime_minutes := r.overtime_minutes }

/-! ## Slot windows (`attendance_punch_slot.py::is_time_in_window`,
`processor.py::_get_slot_punch_type`) -/

/-- `local_time.hour + local_time.minute/60 + local_time.second/3600` for a
naive-UTC timestamp viewed in the fixed-offset timezone `tz`; equals the
whole seconds of the local day divided by 3600. -/
def currentHourOf (t tz : ℚ) : ℚ := (((⌊t + tz⌋ : ℤ).emod 86400 : ℤ) : ℚ) / 3600

/-- `attendance.punch.slot.is_time_in_window`: cross-midnight windows
(`time_to <= time_from`) match `current_hour >= time_from or
current_hour <= time_to`; normal windows match inclusively on both ends. -/
def PunchSlot.is_time_in_window (slot : PunchSlot) (t tz : ℚ) : Bool :=
  let ch := currentHourOf t tz
  if slot.time_to ≤ slot.time_from then
    decide (slot.time_from ≤ ch) || decide (ch ≤ slot.time_to)
  else
    decide (slot.time_from ≤ ch) && decide (ch ≤ slot.time_to)

/-- The active slots in ascending `sequence` order (Python's stable sort). -/
def sortedActiveSlots (s : Shift) : List PunchSlot :=
  List.insertionSort (fun a b => a.sequence ≤ b.sequence)
    (s.punch_slot_ids.filter (·.active))

/-- `processor._get_slot_punch_type`: the punch type of the first active
slot, in ascending sequence order, whose window contains the punch time. -/
def getSlotPunchType (shift : Shift) (t tz : ℚ) : Option String :=
  if shift.punch_slot_ids = [] then none
  else
    ((sortedActiveSlots shift).find? (fun sl => sl.is_time_in_window t tz)).map
      (·.punch_type)

/-! ## Reconciliation engine (`services/processor.py`) -/

/-- Per-punch outcome flags returned by the processor methods. -/
structure PRes where
  success : Bool := false
  ignored : Bool := false
  attendance : Option Nat := none
deriving DecidableEq, Repr

/-- Rendering of a numeric value inside a log message.  Python formats the
floats (e.g. one decimal place); the exact digits are immaterial to every
verified property, only the message identity matters. -/
def numStr (q : ℚ) : String := toString q

/-- The auto-close annotation appended to a stale session's notes. -/
def autoCloseMarker (hours : ℚ) : String :=
  "⚠️ Auto-closed: No checkout after " ++ numStr hours ++ "h"

/-- `hr.attendance.create` as done by the engine (check-in):  the stored
computed `status` starts as `checked_in` since the row has no checkout. -/
def createAttendance (db : DB) (emp : Nat) (t : ℚ) (devId : Nat)
    (shiftVal : Option Shift) : DB × Nat :=
  let att : Attendance :=
    { id := db.nextAttId, employee_id := emp, check_in := t,
      device_id := some devId, shift_id := shiftVal, is_from_device := true,
      status := some .checked_in }
  ({ db with attendances := db.attendances ++ [att],
             nextAttId := db.nextAttId + 1 }, att.id)

/-- `_auto_close_stale_attendance`: close the latest open session if its age
strictly exceeds `autoCloseHours`, at `check_in + autoCloseHours` (pulled
back to one minute before the punch if that were in the future), append the
auto-close marker, and recompute the status.  Returns whether a session was
closed. -/
def autoCloseStale (ctx : Ctx) (db : DB) (emp : Nat) (t : ℚ)
    (autoCloseHours : ℚ) : DB × Bool :=
  match pickLatest (openAttendances db emp) with
  | none => (db, false)
  | some att =>
    let hoursSince : ℚ := (t - att.check_in) / 3600
    if autoCloseHours < hoursSince then
      let closeTime0 := att.check_in + autoCloseHours * 3600
      let closeTime := if t < closeTime0 then t - 60 else closeTime0
      let noteVal := pyStrip (att.note ++ "\n" ++ autoCloseMarker autoCloseHours)
      let db := updateAtt db att.id (fun a =>
        computeStatusFor ctx.empShift ctx.tz
          { a with check_out := some closeTime, note := noteVal })
      (db, true)
    else (db, false)

/-- `_process_simple_toggle`: no open session ⇒ check-in; open session ⇒
check-out, unless the punch comes sooner than `minGap` minutes after the
check-in, in which case it is ignored. -/
def processSimpleToggle (ctx : Ctx) (db : DB) (logId emp : Nat) (t : ℚ)
    (shift : Option Shift) (minGap : ℚ) : DB × PRes :=
  match pickLatest (openAttendances db emp) with
  | none =>
    let (db, attId) := createAttendance db emp t ctx.deviceId shift
    let db := updateLog db logId (fun l =>
      { l with state := .processed, punch_type := "0",
               attendance_id := some attId, message := some "Check-in created" })
    (db, { success := true, attendance := some attId })
  | some att =>
    let hoursSince : ℚ := (t - att.check_in) / 3600
    let minutesSince := hoursSince * 60
    if minutesSince < minGap then
      let db := updateLog db logId (fun l =>
        { l with state := .ignored, punch_type := "0",
                 message := some ("Ignored: Only " ++ numStr minutesSince ++
                   " min since check-in (min: " ++ numStr minGap ++ " min)") })
      (db, { ignored := true })
    else
      let db := updateAtt db att.id (fun a =>
        computeStatusFor ctx.empShift ctx.tz { a with check_out := some t })
      let db := updateLog db logId (fun l =>
        { l with state := .processed, punch_type := "1",
                 attendance_id := some att.id,
                 message := some ("Check-out (" ++ numStr hoursSince ++ "h worked)") })
      (db, { success := true, attendance := some att.id })

/-- `_slot_check_in`: ignored if a session is still open, else create. -/
def slotCheckIn (ctx : Ctx) (db : DB) (logId emp : Nat) (t : ℚ) (shift : Shift)
    (openAtt : Option Attendance) : DB × PRes :=
  match openAtt with
  | some att =>
    let db := updateLog db logId (fun l =>
      { l with state := .ignored,
               message := some ("Already checked in at " ++ hhmm att.check_in ++
                 ".Use Check Out slot.") })
    (db, { ignored := true })
  | none =>
    let (db, attId) := createAttendance db emp t ctx.deviceId (some shift)
    let db := updateLog db logId (fun l =>
      { l with state := .processed, attendance_id := some attId,
               message := some "Check-in created" })
    (db, { success := true, attendance := some attId })

/-- `_slot_check_out`: needs an open session; ignored if sooner than
`minGap` minutes after the check-in; else close and recompute status. -/
def slotCheckOut (ctx : Ctx) (db : DB) (logId : Nat) (t : ℚ)
    (openAtt : Option Attendance) (minGap : ℚ) : DB × PRes :=
  match openAtt with
  | none =>
    let db := updateLog db logId (fun l =>
      { l with state := .ignored,
               message := some "Check Out ignored: No active check-in. Please check in first." })
    (db, { ignored := true })
  | some att =>
    let hoursSince : ℚ := (t - att.check_in) / 3600
    let minutesSince := hoursSince * 60
    if minutesSince < minGap then
      let db := updateLog db logId (fun l =>
        { l with state := .ignored,
                 message := some ("Ignored: Only " ++ numStr minutesSince ++
                   " min since check-in") })
      (db, { ignored := true })
    else
      let db := updateAtt db att.id (fun a =>
        computeStatusFor ctx.empShift ctx.tz { a with check_out := some t })
      let db := updateLog db logId (fun l =>
        { l with state := .processed, attendance_id := some att.id,
                 message := some ("Check-out (" ++ numStr hoursSince ++ "h worked)") })
      (db, { success := true, attendance := some att.id })

/-- `_slot_break_out`: rejected while already on break (more `Break Out: `
markers than `Break In:` markers in the session notes); else append a
break-out marker. -/
def slotBreakOut (_ctx : Ctx) (db : DB) (logId : Nat) (t : ℚ)
    (openAtt : Option Attendance) : DB × PRes :=
  match openAtt with
  | none =>
    let db := updateLog db logId (fun l =>
      { l with state := .ignored,
               message := some "Break Out ignored: No active check-in" })
    (db, { ignored := true })
  | some att =>
    let note := att.note
    if countOcc "Break In:" note < countOcc "Break Out: " note then
      let db := updateLog db logId (fun l =>
        { l with state := .ignored,
                 message := some "Break Out ignored: Already on break. Please clock back in first." })
      (db, { ignored := true })
    else
      let breakNote := "Break Out: " ++ hhmm t
      let db := updateAtt db att.id (fun a =>
        { a with note := pyStrip (note ++ "\n" ++ breakNote) })
      let db := updateLog db logId (fun l =>
        { l with state := .processed, attendance_id := some att.id,
                 message := some "Break started" })
      (db, { success := true, attendance := some att.id })

/-- Digit test for the `\d` of the break-note regex. -/
def isDig (c : Char) : Bool := decide ('0' ≤ c) && decide (c ≤ '9')

/-- Parse the leading `HH:MM` of a character list into minutes of day, as
`datetime.strptime(.., '%H:%M')` would (rejecting out-of-range fields, whose
`ValueError` the code swallows leaving the duration at 0). -/
def parseHHMM : List Char → Option ℤ
  | h1 :: h2 :: c :: m1 :: m2 :: _ =>
    let hv : ℤ := (h1.toNat - '0'.toNat : Nat) * 10 + (h2.toNat - '0'.toNat : Nat)
    let mv : ℤ := (m1.toNat - '0'.toNat : Nat) * 10 + (m2.toNat - '0'.toNat : Nat)
    if isDig h1 && isDig h2 && (c == ':') && isDig m1 && isDig m2
        && decide (hv ≤ 23) && decide (mv ≤ 59) then
      some (hv * 60 + mv)
    else none
  | _ => none

/-- The last `re.findall(r'Break Out: (\d{2}:\d{2})', note)` match, as
minutes of day. -/
def lastBreakOutMinutes : List Char → Option ℤ
  | [] => none
  | c :: rest =>
    match lastBreakOutMinutes rest with
    | some v => some v
    | none =>
      if strPrefixOf "Break Out: ".toList (c :: rest) then
        parseHHMM (List.drop 11 (c :: rest))
      else none

/-- `_slot_break_in`: rejected unless a break is open (strictly more
`Break Out:` markers than `Break In:` markers); else compute the elapsed
break duration from the last break-out marker, accumulate it into
`break_minutes` when positive, and append a break-in marker. -/
def slotBreakIn (_ctx : Ctx) (db : DB) (logId : Nat) (t : ℚ)
    (openAtt : Option Attendance) : DB × PRes :=
  match openAtt with
  | none =>
    let db := updateLog db logId (fun l =>
      { l with state := .ignored,
               message := some "Break In ignored: No active check-in" })
    (db, { ignored := true })
  | some att =>
    let note := att.note
    if countOcc "Break Out:" note ≤ countOcc "Break In:" note then
      let db := updateLog db logId (fun l =>
        { l with state := .ignored,
                 message := some "Break In ignored: Not on break.Please clock out for break first." })
      (db, { ignored := true })
    else
      let breakDuration : ℤ :=
        match lastBreakOutMinutes note.toList with
        | none => 0
        | some outM =>
          let d := minutesOfDay t - outM
          if d < 0 then d + 24 * 60 else d
      let breakNote0 := " | Break In: " ++ hhmm t
      let (db, breakNote) :=
        if 0 < breakDuration then
          (updateAtt db att.id (fun a =>
             { a with break_minutes := att.break_minutes + breakDuration }),
           breakNote0 ++ " (" ++ toString breakDuration ++ " min)")
        else (db, breakNote0)
      let db := updateAtt db att.id (fun a =>
        { a with note := pyStrip (note ++ breakNote) })
      let db := updateLog db logId (fun l =>
        { l with state := .processed, attendance_id := some att.id,
                 message := some (if 0 < breakDuration then
                   "Break ended (" ++ toString breakDuration ++ " min)"
                 else "Break ended") })
      (db, { success := true, attendance := some att.id })

/-- `_slot_overtime_start`: rejected while an overtime span is open (more
`OT Start:` than `OT End:` markers); else append an OT-start marker. -/
def slotOvertimeStart (_ctx : Ctx) (db : DB) (logId : Nat) (t : ℚ)
    (openAtt : Option Attendance) : DB × PRes :=
  match openAtt with
  | none =>
    let db := updateLog db logId (fun l =>
      { l with state := .ignored,
               message := some "Overtime Start ignored: No active check-in" })
    (db, { ignored := true })
  | some att =>
    let note := att.note
    if countOcc "OT End:" note < countOcc "OT Start:" note then
      let db := updateLog db logId (fun l =>
        { l with state := .ignored,
                 message := some "Overtime Start ignored: Already in overtime session." })
      (db, { ignored := true })
    else
      let otNote := "OT Start: " ++ hhmm t
      let db := updateAtt db att.id (fun a =>
        { a with note := pyStrip (note ++ "\n" ++ otNote) })
      let db := updateLog db logId (fun l =>
        { l with state := .processed, attendance_id := some att.id,
                 message := some "Overtime started" })
      (db, { success := true, attendance := some att.id })

/-- `_slot_overtime_end`: rejected unless an overtime span is open; else
append an OT-end marker. -/
def slotOvertimeEnd (_ctx : Ctx) (db : DB) (logId : Nat) (t : ℚ)
    (openAtt : Option Attendance) : DB × PRes :=
  match openAtt with
  | none =>
    let db := updateLog db logId (fun l =>
      { l with state := .ignored,
               message := some "Overtime End ignored: No active check-in" })
    (db, { ignored := true })
  | some att =>
    let note := att.note
    if countOcc "OT Start:" note ≤ countOcc "OT End:" note then
      let db := updateLog db logId (fun l =>
        { l with state := .ignored,
                 message := some "Overtime End ignored: No overtime started." })
      (db, { ignored := true })
    else
      let otNote := " | OT End: " ++ hhmm t
      let db := updateAtt db att.id (fun a =>
        { a with note := pyStrip (note ++ otNote) })
      let db := updateLog db logId (fun l =>
        { l with state := .processed, attendance_id := some att.id,
                 message := some "Overtime ended" })
      (db, { success := true, attendance := some att.id })

/-- `_process_with_slots`: determine the punch type from the configured
time slots and dispatch; with no matching slot the punch is ignored and no
toggle fallback happens. -/
def processWithSlots (ctx : Ctx) (db : DB) (logId emp : Nat) (t : ℚ)
    (shift : Shift) (minGap : ℚ) : DB × PRes :=
  let openAtt := pickLatest (openAttendances db emp)
  match getSlotPunchType shift t ctx.tz with
  | none =>
    let db := updateLog db logId (fun l =>
      { l with state := .ignored,
               message := some ("No matching time slot for punch at " ++ hhmm t) })
    (db, { ignored := true })
  | some ty =>
    let db := updateLog db logId (fun l => { l with punch_type := ty })
    if ty = "0" then slotCheckIn ctx db logId emp t shift openAtt
    else if ty = "1" then slotCheckOut ctx db logId t openAtt minGap
    else if ty = "2" then slotBreakOut ctx db logId t openAtt
    else if ty = "3" then slotBreakIn ctx db logId t openAtt
    else if ty = "4" then slotOvertimeStart ctx db logId t openAtt
    else if ty = "5" then slotOvertimeEnd ctx db logId t openAtt
    else
      let db := updateLog db logId (fun l =>
        { l with state := .error, message := some ("Unknown punch type: " ++ ty) })
      (db, {})

/-- `_process_punch`: resolve the employee (STEP 1, abstracted into
`ctx.resolve` covering the device-user map, `get_or_create_mapping` and
badge lookup), fetch the shift policy, auto-close a stale open session, and
dispatch to toggle or slot mode. -/
def processPunch (ctx : Ctx) (db : DB) (logId : Nat) : DB × PRes :=
  match findLog db logId with
  | none => (db, {})
  | some log =>
    let t := log.timestamp
    match ctx.resolve log.device_user_id with
    | none =>
      let db := updateLog db logId (fun l =>
        { l with state := .error,
                 message := some ("No employee found for ID: " ++ l.device_user_id) })
      (db, {})
    | some emp =>
      let db := updateLog db logId (fun l => { l with employee_id := some emp })
      let shift := ctx.empShift emp
      let minGap := match shift with | some s => s.min_punch_gap_minutes | none => 1
      let autoClose := match shift with
        | some s => s.auto_checkout_after_hours
        | none => 16
      let db := (autoCloseStale ctx db emp t autoClose).1
      match shift with
      | some s =>
        if s.use_punch_slots then processWithSlots ctx db logId emp t s minGap
        else processSimpleToggle ctx db logId emp t (some s) minGap
      | none => processSimpleToggle ctx db logId emp t none minGap

/-! ## Batch processing (`process_raw_logs`) and reprocessing
(`attendance_raw_log.py::action_reprocess`) -/

/-- One entry of a device-sync batch (a `log_data` dict). -/
structure LogData where
  device_user_id : String := ""
  timestamp : Option ℚ := none
  punch_type : String := "0"
  raw_data : String := ""
deriving DecidableEq, Repr

/-- Batch counters (`process_raw_logs`'s `result` dict). -/
structure BatchRes where
  fetched : Nat := 0
  processed : Nat := 0
  failed : Nat := 0
  duplicates : Nat := 0
  ignored : Nat := 0
deriving DecidableEq, Repr

/-- The per-entry outcome recorded into the batch counters. -/
inductive EntryOutcome
  | failedEntry
  | dupEntry
  | processedEntry
  | ignoredEntry
deriving DecidableEq, Repr

/-- Bump the counter named by the outcome. -/
def tally (r : BatchRes) : EntryOutcome → BatchRes
  | .failedEntry => { r with failed := r.failed + 1 }
  | .dupEntry => { r with duplicates := r.duplicates + 1 }
  | .processedEntry => { r with processed := r.processed + 1 }
  | .ignoredEntry => { r with ignored := r.ignored + 1 }

/-- The loop body of `process_raw_logs` for one batch entry: validate the
identity fields, run the deduplicator against the persisted raw logs
(exact match on (device, user, timestamp), then a near-duplicate search
within `W` seconds restricted to states processed/pending), and only then
persist the raw log and process the punch. -/
def stepEntry (ctx : Ctx) (W : ℚ) (db : DB) (e : LogData) : DB × EntryOutcome :=
  let duid := pyStrip e.device_user_id
  if duid = "" then (db, .failedEntry)
  else
    match e.timestamp with
    | none => (db, .failedEntry)
    | some t =>
      if db.rawLogs.any (fun l =>
          l.device_id == ctx.deviceId && l.device_user_id == duid
            && l.timestamp == t) then
        (db, .dupEntry)
      else if db.rawLogs.any (fun l =>
          l.device_id == ctx.deviceId && l.device_user_id == duid
            && decide (t - W ≤ l.timestamp) && decide (l.timestamp ≤ t + W)
            && (l.state == .processed || l.state == .pending)) then
        (db, .dupEntry)
      else
        let lg : RawLog :=
          { id := db.nextLogId, device_id := ctx.deviceId,
            device_user_id := duid, timestamp := t,
            punch_type := e.punch_type, state := .pending,
            raw_data := e.raw_data }
        let db := { db with rawLogs := db.rawLogs ++ [lg],
                            nextLogId := db.nextLogId + 1 }
        let (db, r) := processPunch ctx db lg.id
        if r.success then (db, .processedEntry)
        else if r.ignored then (db, .ignoredEntry)
        else (db, .failedEntry)

/-- The batch is sorted by timestamp when every entry carries one; a batch
mixing present and missing timestamps makes Python's `sorted` raise (string
vs datetime), which the code catches, keeping the original order. -/
def sortBatch (logs : List LogData) : List LogData :=
  if logs.all (·.timestamp.isSome) then
    List.insertionSort
      (fun a b => a.timestamp.getD 0 ≤ b.timestamp.getD 0) logs
  else logs

/-- `process_raw_logs(device, raw_logs)`: `fetched` is the raw batch size;
entries are processed in chronological order, each one validated,
deduplicated, persisted and processed, with per-outcome counters. -/
def process_raw_logs (ctx : Ctx) (W : ℚ) (db : DB) (logs : List LogData) :
    DB × BatchRes :=
  (sortBatch logs).foldl
    (fun (p : DB × BatchRes) e =>
      let (db, o) := stepEntry ctx W p.1 e
      (db, tally p.2 o))
    (db, { fetched := logs.length })

/-- `attendance.raw.log.action_reprocess` on a selection of log ids: only
logs in state pending/error/ignored are taken; each is reset (state
`pending`, message and attendance link cleared) and re-run through
`process_single_log`/`_process_punch`.  Returns the updated database and
the success/failed counters of the closing notification. -/
def action_reprocess (ctx : Ctx) (db : DB) (ids : List Nat) : DB × Nat × Nat :=
  ids.foldl
    (fun (acc : DB × Nat × Nat) id =>
      let (db, succ, fail) := acc
      match findLog db id with
      | none => (db, succ, fail)
      | some log =>
        if log.state == .pending || log.state == .error
            || log.state == .ignored then
          let db := updateLog db id (fun l =>
            { l with state := .pending, message := none, attendance_id := none })
          let (db, r) := processPunch ctx db id
          if r.success then (db, succ + 1, fail)
          else if r.ignored then (db, succ + 1, fail)
          else (db, succ, fail + 1)
        else (db, succ, fail))
    (db, 0, 0)

/-- First-match selection over an ordered list of (condition, status) rules,
defaulting to `on_time`: the spec's "first matching rule wins, evaluated in
this order" reading of the final-status decision. -/
def statusPriority (rules : List (Bool × AttStatus)) : AttStatus :=
  match rules.find? (·.1) with
  | some r => r.2
  | none => .on_time

/-- Round a rational to the nearest multiple of `2^-k`, ties to even: the
IEEE-754 binary64 rounding of an exact value lying in a binade where the
unit in the last place is `2^-k`.  Used to evaluate the program's float64
division `worked_hours = 29400.0/3600.0` of the §8 status scenario, where
`8 ≤ 49/6 < 16` gives `k = 49`.  The subsequent float subtraction of `8.0`
and multiplication by `60` are exact there — their exact results
`93824992236885/2^49` and `5629499534213100/2^49` have significands below
`2^53` — so this single rounding step models the whole float chain of
`_compute_status`'s overtime computation at that input. -/
def nearestDyadic (k : ℕ) (q : ℚ) : ℚ :=
  let s := q * 2 ^ k
  let f : ℤ := ⌊s⌋
  let r : ℤ :=
    if s - f < 1 / 2 then f
    else if (1 : ℚ) / 2 < s - f then f + 1
    else if f % 2 = 0 then f else f + 1
  (r : ℚ) / 2 ^ k

/-! ## Concrete fixtures used by witnesses and counterexamples -/

/-- Identity resolver mapping badge "B" to employee 1. -/
def resolveB : String → Option Nat := fun s => if s = "B" then some 1 else none

/-- The §8 status-scenario policy: start 9.0, end 17.0, late_after 15,
half_day 4.0, overtime_after 8.0. -/
def shiftC4 : Shift := { id := 1, work_hour_from := 9, work_hour_to := 17 }

/-- The §8 status-scenario session: check-in 09:20 UTC, check-out 17:30 UTC
on day 0 (local = UTC). -/
def attC4 : Attendance :=
  { id := 1, employee_id := 1, check_in := 33600, check_out := some 63000,
    shift_id := some shiftC4 }

/-- A session left open since T = 0 (employee 1). -/
def attStale : Attendance :=
  { id := 1, employee_id := 1, check_in := 0, status := some .checked_in }

/-- A shift policy with `auto_checkout_after_hours = 20`. -/
def shift20 : Shift := { id := 2, auto_checkout_after_hours := 20 }

/-- Context whose policy store returns `shift20` for every employee. -/
def ctxSh20 : Ctx :=
  { deviceId := 7, tz := 0, resolve := resolveB, empShift := fun _ => some shift20 }

/-- Database with the stale open session and a pending raw punch of badge
"B" at T+21h = 75600s. -/
def dbStale20 : DB :=
  { rawLogs := [{ id := 1, device_id := 7, device_user_id := "B",
                  timestamp := 75600 }],
    attendances := [attStale], nextLogId := 2, nextAttId := 2 }

/-- Context with no shift policy configured (toggle mode, default gaps). -/
def ctxPlain : Ctx :=
  { deviceId := 7, tz := 0, resolve := resolveB, empShift := fun _ => none }

/-- The two-punch §8 duplicate scenario: (D,B,T) and (D,B,T+30s). -/
def batchDup : List LogData :=
  [⟨"B", some 1000, "0", ""⟩, ⟨"B", some 1030, "0", ""⟩]

/-- The database after the first punch of `batchDup` is processed: one
processed raw log and one open check-in session. -/
def dbAfterB1 : DB :=
  { rawLogs := [{ id := 1, device_id := 7, device_user_id := "B",
                  timestamp := 1000, punch_type := "0", state := .processed,
                  employee_id := some 1, attendance_id := some 1,
                  message := some "Check-in created" }],
    attendances := [{ id := 1, employee_id := 1, check_in := 1000,
                      device_id := some 7, is_from_device := true,
                      status := some .checked_in }],
    nextLogId := 2, nextAttId := 2 }

/-- A check-in slot window covering 00:00-12:00. -/
def slotCheckInWindow : PunchSlot :=
  { sequence := 10, punch_type := "0", time_from := 0, time_to := 12 }

/-- A slot-mode shift with only the check-in window configured. -/
def shiftSlotMode : Shift :=
  { id := 3, use_punch_slots := true, punch_slot_ids := [slotCheckInWindow] }

/-- Context whose policy store returns the slot-mode shift. -/
def ctxSlot : Ctx :=
  { deviceId := 7, tz := 0, resolve := resolveB, empShift := fun _ => some shiftSlotMode }

/-- Database with an open session since T = 0 and a pending raw punch of
badge "B" at 01:00, falling inside the check-in window. -/
def dbSlot8 : DB :=
  { rawLogs := [{ id := 1, device_id := 7, device_user_id := "B",
                  timestamp := 3600 }],
    attendances := [attStale], nextLogId := 2, nextAttId := 2 }

instance : IsTotal PunchSlot (fun a b => a.sequence ≤ b.sequence) :=
  ⟨fun a b => Int.le_total a.sequence b.sequence⟩

instance : IsTrans PunchSlot (fun a b => a.sequence ≤ b.sequence) :=
  ⟨fun _ _ _ h1 h2 => le_trans h1 h2⟩

/-! ## Helper lemmas: substring containment under append and strip -/

lemma infix_append_left {p a : List Char} (b : List Char) (h : p <:+: a) :
    p <:+: a ++ b :=
  h.trans (a.prefix_append b).isInfix

lemma infix_append_right {p b : List Char} (a : List Char) (h : p <:+: b) :
    p <:+: a ++ b :=
  h.trans (a.suffix_append b).isInfix

/-- An occurrence of a pattern whose first character is not whitespace
survives dropping leading whitespace. -/
lemma infix_dropWhile_of_head {c : Char} {cs l : List Char}
    (hc : c.isWhitespace = false) (h : (c :: cs) <:+: l) :
    (c :: cs) <:+: l.dropWhile Char.isWhitespace := by
  induction l with
  | nil => simp at h
  | cons x xs ih =>
    rw [List.dropWhile_cons]
    by_cases hx : x.isWhitespace = true
    · rw [if_pos hx]
      rcases List.infix_cons_iff.mp h with hpre | hinf
      · obtain ⟨rfl, -⟩ := List.cons_prefix_cons.mp hpre
        rw [hc] at hx; exact absurd hx (by simp)
      · exact ih hinf
    · rw [if_neg hx]; exact h

/-- An occurrence of a pattern whose first and last characters are not
whitespace survives `str.strip()`. -/
lemma contains_pyStrip {s pat : String} (h : pat.toList <:+: s.toList)
    (h1 : ∃ c cs, pat.toList = c :: cs ∧ c.isWhitespace = false)
    (h2 : ∃ c cs, pat.toList.reverse = c :: cs ∧ c.isWhitespace = false) :
    containsStr (pyStrip s) pat = true := by
  obtain ⟨c, cs, hpc, hc⟩ := h1
  obtain ⟨d, ds, hpd, hd⟩ := h2
  have step1 : pat.toList <:+: s.toList.dropWhile Char.isWhitespace := by
    rw [hpc] at h ⊢; exact infix_dropWhile_of_head hc h
  have step2 : pat.toList.reverse <:+:
      (s.toList.dropWhile Char.isWhitespace).reverse :=
    List.reverse_infix.mpr step1
  have step3 : pat.toList.reverse <:+:
      ((s.toList.dropWhile Char.isWhitespace).reverse.dropWhile
        Char.isWhitespace) := by
    rw [hpd] at step2 ⊢; exact infix_dropWhile_of_head hd step2
  have step4 : pat.toList <:+:
      ((s.toList.dropWhile Char.isWhitespace).reverse.dropWhile
        Char.isWhitespace).reverse := by
    have := List.reverse_infix.mpr step3
    simpa using this
  unfold containsStr pyStrip
  exact decide_eq_true step4

/-- The auto-close annotation always leaves `Auto-closed` in the stripped
note, whatever the prior note text and threshold rendering. -/
lemma autoClosed_in_note (note : String) (hours : ℚ) :
    containsStr (pyStrip (note ++ "\n" ++ autoCloseMarker hours))
      "Auto-closed" = true := by
  apply contains_pyStrip
  · show ("Auto-closed".toList) <:+:
      (note.toList ++ "\n".toList) ++
        ("⚠️ Auto-closed: No checkout after ".toList ++
          ((numStr hours).toList ++ "h".toList))
    apply infix_append_right
    apply infix_append_left
    decide
  · exact ⟨'A', _, rfl, by decide⟩
  · exact ⟨'d', ['e', 's', 'o', 'l', 'c', '-', 'o', 't', 'u', 'A'], by decide,
      by decide⟩

/-- `str.strip()` on the fixture badge "B" is the identity. -/
lemma pyStrip_B : pyStrip "B" = "B" := by decide

/-! ## Helper lemmas: database plumbing -/

@[simp] lemma updateLog_attendances (db : DB) (id : Nat) (f : RawLog → RawLog) :
    (updateLog db id f).attendances = db.attendances := rfl

@[simp] lemma updateAtt_rawLogs (db : DB) (id : Nat) (f : Attendance → Attendance) :
    (updateAtt db id f).rawLogs = db.rawLogs := rfl

@[simp] lemma computeStatusFor_id (es : Nat → Option Shift) (tz : ℚ) (a : Attendance) :
    (computeStatusFor es tz a).id = a.id := rfl

@[simp] lemma computeStatusFor_employee_id (es : Nat → Option Shift) (tz : ℚ)
    (a : Attendance) : (computeStatusFor es tz a).employee_id = a.employee_id := rfl

@[simp] lemma computeStatusFor_check_out (es : Nat → Option Shift) (tz : ℚ)
    (a : Attendance) : (computeStatusFor es tz a).check_out = a.check_out := rfl

@[simp] lemma computeStatusFor_check_in (es : Nat → Option Shift) (tz : ℚ)
    (a : Attendance) : (computeStatusFor es tz a).check_in = a.check_in := rfl

@[simp] lemma computeStatusFor_note (es : Nat → Option Shift) (tz : ℚ)
    (a : Attendance) : (computeStatusFor es tz a).note = a.note := rfl

@[simp] lemma openCount_updateLog (db : DB) (id : Nat) (f : RawLog → RawLog)
    (e : Nat) : openCount (updateLog db id f) e = openCount db e := rfl

@[simp] lemma openAttendances_updateLog (db : DB) (id : Nat) (f : RawLog → RawLog)
    (e : Nat) : openAttendances (updateLog db id f) e = openAttendances db e := rfl

lemma length_filter_map_le {α : Type _} (g : α → α) (p : α → Bool) (l : List α)
    (h : ∀ a, p (g a) = true → p a = true) :
    ((l.map g).filter p).length ≤ (l.filter p).length := by
  induction l with
  | nil => simp
  | cons x xs ih =>
    simp only [List.map_cons, List.filter_cons]
    by_cases hx : p (g x) = true
    · rw [if_pos hx, if_pos (h x hx)]
      simpa using ih
    · rw [if_neg hx]
      by_cases hx' : p x = true
      · rw [if_pos hx']; exact ih.trans (Nat.le_succ _)
      · rw [if_neg hx']; exact ih

lemma length_filter_map_eq {α : Type _} (g : α → α) (p : α → Bool) (l : List α)
    (h : ∀ a, p (g a) = p a) :
    ((l.map g).filter p).length = (l.filter p).length := by
  induction l with
  | nil => simp
  | cons x xs ih =>
    simp only [List.map_cons, List.filter_cons, h x]
    by_cases hx : p x = true
    · rw [if_pos hx, if_pos hx]; simpa using ih
    · rw [if_neg hx, if_neg hx]; exact ih

/-- Writing a record update that always sets a checkout cannot increase any
employee's open-session count. -/
lemma openCount_updateAtt_le (db : DB) (id : Nat) (f : Attendance → Attendance)
    (e : Nat) (h : ∀ a, ((f a).check_out).isNone = false) :
    openCount (updateAtt db id f) e ≤ openCount db e := by
  unfold openCount openAttendances updateAtt
  apply length_filter_map_le
  intro a ha
  by_cases hid : (a.id == id) = true
  · rw [if_pos hid] at ha
    exfalso
    unfold openFor at ha
    rw [h a] at ha
    simp at ha
  · rwa [if_neg hid] at ha

/-- A record update that never touches `employee_id` or `check_out` keeps
every employee's open-session count. -/
lemma openCount_updateAtt_eq (db : DB) (id : Nat) (f : Attendance → Attendance)
    (e : Nat)
    (h : ∀ a, (f a).check_out = a.check_out ∧ (f a).employee_id = a.employee_id) :
    openCount (updateAtt db id f) e = openCount db e := by
  unfold openCount openAttendances updateAtt
  apply length_filter_map_eq
  intro a
  by_cases hid : (a.id == id) = true
  · rw [if_pos hid]
    unfold openFor
    rw [(h a).1, (h a).2]
  · rw [if_neg hid]

lemma openCount_createAttendance (db : DB) (emp : Nat) (t : ℚ) (dev : Nat)
    (sh : Option Shift) (e : Nat) :
    openCount (createAttendance db emp t dev sh).1 e
      = openCount db e + (if emp == e then 1 else 0) := by
  unfold createAttendance openCount openAttendances openFor
  simp only [List.filter_append, List.length_append]
  congr 1
  by_cases he : (emp == e) = true
  · rw [if_pos he]; simp [List.filter, he]
  · rw [if_neg he]
    rw [Bool.not_eq_true] at he
    simp [List.filter, he]

lemma pickLatest_eq_nil {l : List Attendance} (h : pickLatest l = none) :
    l = [] := by
  cases l with
  | nil => rfl
  | cons a as =>
    exfalso
    unfold pickLatest at h
    cases h' : pickLatest as with
    | none => rw [h'] at h; exact Option.noConfusion h
    | some b =>
      rw [h'] at h
      change (if a.check_in < b.check_in then some b else some a) = none at h
      split at h <;> exact Option.noConfusion h

lemma pickLatest_mem {l : List Attendance} {a : Attendance}
    (h : pickLatest l = some a) : a ∈ l := by
  induction l with
  | nil => simp [pickLatest] at h
  | cons x xs ih =>
    unfold pickLatest at h
    cases h' : pickLatest xs with
    | none =>
      rw [h'] at h
      change some x = some a at h
      injection h with h2
      subst h2
      exact List.mem_cons_self x xs
    | some b =>
      rw [h'] at h
      change (if x.check_in < b.check_in then some b else some x) = some a at h
      split at h
      · injection h with h2
        subst h2
        exact List.mem_cons_of_mem x (ih h')
      · injection h with h2
        subst h2
        exact List.mem_cons_self x xs

lemma find?_map_update {α : Type _} (key : α → Nat) (id : Nat) (f : α → α)
    (l : List α) (hf : ∀ x, key (f x) = key x) :
    (l.map (fun x => if key x == id then f x else x)).find?
        (fun x => key x == id)
      = (l.find? (fun x => key x == id)).map f := by
  induction l with
  | nil => rfl
  | cons x xs ih =>
    by_cases hx : (key x == id) = true
    · rw [List.map_cons, if_pos hx]
      have h1 : List.find? (fun y => key y == id)
          (f x :: List.map (fun y => if key y == id then f y else y) xs)
            = some (f x) :=
        List.find?_cons_of_pos _ (by rw [hf x]; exact hx)
      have h2 : List.find? (fun y => key y == id) (x :: xs) = some x :=
        List.find?_cons_of_pos _ hx
      rw [h1, h2]
      rfl
    · rw [List.map_cons, if_neg hx]
      have h1 : List.find? (fun y => key y == id)
          (x :: List.map (fun y => if key y == id then f y else y) xs)
            = List.find? (fun y => key y == id)
                (List.map (fun y => if key y == id then f y else y) xs) :=
        List.find?_cons_of_neg _ hx
      have h2 : List.find? (fun y => key y == id) (x :: xs)
          = List.find? (fun y => key y == id) xs :=
        List.find?_cons_of_neg _ hx
      rw [h1, h2]
      exact ih

lemma findLog_updateLog (db : DB) (id : Nat) (f : RawLog → RawLog)
    (hf : ∀ l, (f l).id = l.id) :
    findLog (updateLog db id f) id = (findLog db id).map f := by
  unfold findLog updateLog
  exact find?_map_update (fun l => l.id) id f db.rawLogs hf

lemma findLog_updateLog_at {db : DB} {id : Nat} {f : RawLog → RawLog}
    (hf : ∀ l, (f l).id = l.id) {log : RawLog}
    (hlog : findLog db id = some log) :
    findLog (updateLog db id f) id = some (f log) := by
  rw [findLog_updateLog db id f hf, hlog]
  rfl

lemma findAtt_updateAtt (db : DB) (id : Nat) (f : Attendance → Attendance)
    (hf : ∀ a, (f a).id = a.id) :
    findAtt (updateAtt db id f) id = (findAtt db id).map f := by
  unfold findAtt updateAtt
  exact find?_map_update (fun a => a.id) id f db.attendances hf

lemma find?_eq_of_mem_nodup {l : List Attendance} {a : Attendance}
    (hmem : a ∈ l) (hnd : (l.map (·.id)).Nodup) :
    l.find? (fun x => x.id == a.id) = some a := by
  induction l with
  | nil => simp at hmem
  | cons x xs ih =>
    rw [List.map_cons, List.nodup_cons] at hnd
    rcases List.mem_cons.mp hmem with rfl | hmem'
    · rw [List.find?_cons_of_pos _ (by simp)]
    · have hne : (x.id == a.id) = false := by
        rw [beq_eq_false_iff_ne]
        intro he
        exact hnd.1 (he ▸ List.mem_map_of_mem (·.id) hmem')
      rw [List.find?_cons_of_neg _ (by simp [hne])]
      exact ih hmem' hnd.2

lemma findAtt_of_pickLatest {db : DB} {emp : Nat} {att : Attendance}
    (hnd : (db.attendances.map (·.id)).Nodup)
    (h : pickLatest (openAttendances db emp) = some att) :
    findAtt db att.id = some att := by
  have hmem : att ∈ db.attendances :=
    List.mem_of_mem_filter (pickLatest_mem h)
  exact find?_eq_of_mem_nodup hmem hnd

/-! ## Preservation of the open-session invariant, stage by stage -/

lemma openInv_updateLog {db : DB} (id : Nat) (f : RawLog → RawLog)
    (h : OpenInv db) : OpenInv (updateLog db id f) := fun e => by
  rw [openCount_updateLog]; exact h e

lemma openInv_updateAtt_close {db : DB} (id : Nat) (f : Attendance → Attendance)
    (hf : ∀ a, ((f a).check_out).isNone = false) (h : OpenInv db) :
    OpenInv (updateAtt db id f) := fun e =>
  (openCount_updateAtt_le db id f e hf).trans (h e)

lemma openInv_updateAtt_frame {db : DB} (id : Nat) (f : Attendance → Attendance)
    (hf : ∀ a, (f a).check_out = a.check_out ∧ (f a).employee_id = a.employee_id)
    (h : OpenInv db) : OpenInv (updateAtt db id f) := fun e => by
  rw [openCount_updateAtt_eq db id f e hf]; exact h e

lemma openInv_createAttendance {db : DB} {emp : Nat} (t : ℚ) (dev : Nat)
    (sh : Option Shift) (h : OpenInv db) (h0 : openCount db emp = 0) :
    OpenInv (createAttendance db emp t dev sh).1 := by
  intro e
  rw [openCount_createAttendance]
  by_cases he : (emp == e) = true
  · have he' : emp = e := by simpa using he
    rw [if_pos he]
    subst he'
    omega
  · rw [if_neg he]
    have := h e
    omega

lemma openCount_of_pickLatest_none {db : DB} {emp : Nat}
    (h : pickLatest (openAttendances db emp) = none) : openCount db emp = 0 := by
  unfold openCount
  rw [pickLatest_eq_nil h]
  rfl

lemma openInv_autoCloseStale (ctx : Ctx) (db : DB) (emp : Nat) (t h : ℚ)
    (hinv : OpenInv db) : OpenInv (autoCloseStale ctx db emp t h).1 := by
  unfold autoCloseStale
  cases hp : pickLatest (openAttendances db emp) with
  | none => exact hinv
  | some att =>
    dsimp only
    split
    · exact openInv_updateAtt_close _ _ (fun a => by simp) hinv
    · exact hinv

lemma openInv_processSimpleToggle (ctx : Ctx) (db : DB) (logId emp : Nat)
    (t : ℚ) (shift : Option Shift) (minGap : ℚ) (hinv : OpenInv db) :
    OpenInv (processSimpleToggle ctx db logId emp t shift minGap).1 := by
  unfold processSimpleToggle
  cases hp : pickLatest (openAttendances db emp) with
  | none =>
    dsimp only
    exact openInv_updateLog _ _
      (openInv_createAttendance t ctx.deviceId shift hinv
        (openCount_of_pickLatest_none hp))
  | some att =>
    dsimp only
    split
    · exact openInv_updateLog _ _ hinv
    · exact openInv_updateLog _ _
        (openInv_updateAtt_close _ _ (fun a => by simp) hinv)

lemma openInv_slotCheckIn (ctx : Ctx) (db : DB) (logId emp : Nat) (t : ℚ)
    (shift : Shift) (openAtt : Option Attendance) (hinv : OpenInv db)
    (hopen : pickLatest (openAttendances db emp) = openAtt) :
    OpenInv (slotCheckIn ctx db logId emp t shift openAtt).1 := by
  unfold slotCheckIn
  cases openAtt with
  | some att => exact openInv_updateLog _ _ hinv
  | none =>
    dsimp only
    exact openInv_updateLog _ _
      (openInv_createAttendance t ctx.deviceId (some shift) hinv
        (openCount_of_pickLatest_none hopen))

lemma openInv_slotCheckOut (ctx : Ctx) (db : DB) (logId : Nat) (t : ℚ)
    (openAtt : Option Attendance) (minGap : ℚ) (hinv : OpenInv db) :
    OpenInv (slotCheckOut ctx db logId t openAtt minGap).1 := by
  unfold slotCheckOut
  cases openAtt with
  | none => exact openInv_updateLog _ _ hinv
  | some att =>
    dsimp only
    split
    · exact openInv_updateLog _ _ hinv
    · exact openInv_updateLog _ _
        (openInv_updateAtt_close _ _ (fun a => by simp) hinv)

lemma openInv_slotBreakOut (ctx : Ctx) (db : DB) (logId : Nat) (t : ℚ)
    (openAtt : Option Attendance) (hinv : OpenInv db) :
    OpenInv (slotBreakOut ctx db logId t openAtt).1 := by
  unfold slotBreakOut
  cases openAtt with
  | none => exact openInv_updateLog _ _ hinv
  | some att =>
    dsimp only
    split
    · exact openInv_updateLog _ _ hinv
    · exact openInv_updateLog _ _
        (openInv_updateAtt_frame _ _ (fun a => ⟨rfl, rfl⟩) hinv)

lemma openInv_slotBreakIn (ctx : Ctx) (db : DB) (logId : Nat) (t : ℚ)
    (openAtt : Option Attendance) (hinv : OpenInv db) :
    OpenInv (slotBreakIn ctx db logId t openAtt).1 := by
  unfold slotBreakIn
  cases openAtt with
  | none => exact openInv_updateLog _ _ hinv
  | some att =>
    dsimp only
    split
    · exact openInv_updateLog _ _ hinv
    · split
      · exact openInv_updateLog _ _
          (openInv_updateAtt_frame _ _ (fun a => ⟨rfl, rfl⟩)
            (openInv_updateAtt_frame _ _ (fun a => ⟨rfl, rfl⟩) hinv))
      · exact openInv_updateLog _ _
          (openInv_updateAtt_frame _ _ (fun a => ⟨rfl, rfl⟩) hinv)

lemma openInv_slotOvertimeStart (ctx : Ctx) (db : DB) (logId : Nat) (t : ℚ)
    (openAtt : Option Attendance) (hinv : OpenInv db) :
    OpenInv (slotOvertimeStart ctx db logId t openAtt).1 := by
  unfold slotOvertimeStart
  cases openAtt with
  | none => exact openInv_updateLog _ _ hinv
  | some att =>
    dsimp only
    split
    · exact openInv_updateLog _ _ hinv
    · exact openInv_updateLog _ _
        (openInv_updateAtt_frame _ _ (fun a => ⟨rfl, rfl⟩) hinv)

lemma openInv_slotOvertimeEnd (ctx : Ctx) (db : DB) (logId : Nat) (t : ℚ)
    (openAtt : Option Attendance) (hinv : OpenInv db) :
    OpenInv (slotOvertimeEnd ctx db logId t openAtt).1 := by
  unfold slotOvertimeEnd
  cases openAtt with
  | none => exact openInv_updateLog _ _ hinv
  | some att =>
    dsimp only
    split
    · exact openInv_updateLog _ _ hinv
    · exact openInv_updateLog _ _
        (openInv_updateAtt_frame _ _ (fun a => ⟨rfl, rfl⟩) hinv)

lemma openInv_processWithSlots (ctx : Ctx) (db : DB) (logId emp : Nat)
    (t : ℚ) (shift : Shift) (minGap : ℚ) (hinv : OpenInv db) :
    OpenInv (processWithSlots ctx db logId emp t shift minGap).1 := by
  unfold processWithSlots
  cases hslot : getSlotPunchType shift t ctx.tz with
  | none =>
    dsimp only
    exact openInv_updateLog _ _ hinv
  | some ty =>
    dsimp only
    split
    · exact openInv_slotCheckIn _ _ _ _ _ _ _
        (openInv_updateLog _ _ hinv) rfl
    · split
      · exact openInv_slotCheckOut _ _ _ _ _ _
          (openInv_updateLog _ _ hinv)
      · split
        · exact openInv_slotBreakOut _ _ _ _ _
            (openInv_updateLog _ _ hinv)
        · split
          · exact openInv_slotBreakIn _ _ _ _ _
              (openInv_updateLog _ _ hinv)
          · split
            · exact openInv_slotOvertimeStart _ _ _ _ _
                (openInv_updateLog _ _ hinv)
            · split
              · exact openInv_slotOvertimeEnd _ _ _ _ _
                  (openInv_updateLog _ _ hinv)
              · exact openInv_updateLog _ _ (openInv_updateLog _ _ hinv)

lemma openInv_processPunch (ctx : Ctx) (db : DB) (logId : Nat)
    (hinv : OpenInv db) : OpenInv (processPunch ctx db logId).1 := by
  unfold processPunch
  cases hl : findLog db logId with
  | none => exact hinv
  | some log =>
    dsimp only
    cases hr : ctx.resolve log.device_user_id with
    | none =>
      dsimp only
      exact openInv_updateLog _ _ hinv
    | some emp =>
      dsimp only
      cases hs : ctx.empShift emp with
      | none =>
        dsimp only
        exact openInv_processSimpleToggle _ _ _ _ _ _ _
          (openInv_autoCloseStale _ _ _ _ _ (openInv_updateLog _ _ hinv))
      | some s =>
        dsimp only
        split
        · exact openInv_processWithSlots _ _ _ _ _ _ _
            (openInv_autoCloseStale _ _ _ _ _ (openInv_updateLog _ _ hinv))
        · exact openInv_processSimpleToggle _ _ _ _ _ _ _
            (openInv_autoCloseStale _ _ _ _ _ (openInv_updateLog _ _ hinv))

lemma openInv_afterPunch (ctx : Ctx) (db0 : DB) (id : Nat)
    (hinv : OpenInv db0) :
    OpenInv ((match processPunch ctx db0 id with
      | (db, r) =>
        if r.success then (db, EntryOutcome.processedEntry)
        else if r.ignored then (db, EntryOutcome.ignoredEntry)
        else (db, EntryOutcome.failedEntry)).1) := by
  rcases hpp : processPunch ctx db0 id with ⟨db2, r⟩
  have h2 := openInv_processPunch ctx db0 id hinv
  rw [hpp] at h2
  dsimp only
  split
  · exact h2
  · split
    · exact h2
    · exact h2

lemma openInv_stepEntry (ctx : Ctx) (W : ℚ) (db : DB) (e : LogData)
    (hinv : OpenInv db) : OpenInv (stepEntry ctx W db e).1 := by
  unfold stepEntry
  dsimp only
  by_cases h1 : pyStrip e.device_user_id = ""
  · rw [if_pos h1]; exact hinv
  · rw [if_neg h1]
    cases ht : e.timestamp with
    | none => exact hinv
    | some t =>
      dsimp only
      split
      · exact hinv
      · split
        · exact hinv
        · exact openInv_afterPunch ctx _ _ (fun e' => hinv e')

lemma openInv_foldl (ctx : Ctx) (W : ℚ) (l : List LogData) :
    ∀ (db : DB) (res : BatchRes), OpenInv db →
      OpenInv (l.foldl
        (fun (p : DB × BatchRes) e =>
          let (db, o) := stepEntry ctx W p.1 e
          (db, tally p.2 o)) (db, res)).1 := by
  induction l with
  | nil => intro db res h; exact h
  | cons x xs ih =>
    intro db res h
    rw [List.foldl_cons]
    have h' := openInv_stepEntry ctx W db x h
    rcases hs : stepEntry ctx W db x with ⟨db', o⟩
    rw [hs] at h'
    exact ih db' (tally res o) h'

lemma openInv_process_raw_logs (ctx : Ctx) (W : ℚ) (db : DB)
    (logs : List LogData) (hinv : OpenInv db) :
    OpenInv (process_raw_logs ctx W db logs).1 := by
  unfold process_raw_logs
  exact openInv_foldl ctx W (sortBatch logs) db { fetched := logs.length } hinv

/-- Evaluation of the first `batchDup` entry: a processed check-in. -/
lemma stepB1 : stepEntry ctxPlain 60 {} ⟨"B", some 1000, "0", ""⟩
    = (dbAfterB1, .processedEntry) := by decide

/-- Evaluation of the second `batchDup` entry: a near-duplicate, database
unchanged. -/
lemma stepB2 : stepEntry ctxPlain 60 dbAfterB1 ⟨"B", some 1030, "0", ""⟩
    = (dbAfterB1, .dupEntry) := by
  unfold stepEntry
  rw [if_neg (by decide : ¬(pyStrip "B" = ""))]
  dsimp only
  rw [if_neg (by decide : ¬((dbAfterB1.rawLogs.any (fun l =>
    l.device_id == ctxPlain.deviceId && l.device_user_id == pyStrip "B"
      && l.timestamp == 1030)) = true))]
  rw [if_pos ?hnear]
  case hnear =>
    simp [dbAfterB1, ctxPlain, pyStrip_B]
    norm_num

/-- Evaluation of the whole `batchDup` batch. -/
lemma processB_eval : process_raw_logs ctxPlain 60 {} batchDup
    = (dbAfterB1, { fetched := 2, processed := 1, duplicates := 1 }) := by
  have hsort : sortBatch batchDup = batchDup := by decide
  unfold process_raw_logs
  rw [hsort]
  unfold batchDup
  rw [List.foldl_cons]
  dsimp only
  rw [stepB1]
  dsimp only [tally]
  rw [List.foldl_cons]
  dsimp only
  rw [stepB2]
  dsimp only [tally]
  rw [List.foldl_nil]
  decide

/-- `tally` never touches the `fetched` counter. -/
lemma tally_fetched (r : BatchRes) (o : EntryOutcome) :
    (tally r o).fetched = r.fetched := by
  cases o <;> rfl

/-- The batch fold preserves the initial `fetched` counter. -/
lemma foldl_fetched (ctx : Ctx) (W : ℚ) (l : List LogData) :
    ∀ (db : DB) (res : BatchRes),
      ((l.foldl (fun (p : DB × BatchRes) e =>
        let (db, o) := stepEntry ctx W p.1 e
        (db, tally p.2 o)) (db, res)).2).fetched = res.fetched := by
  induction l with
  | nil => intro db res; rfl
  | cons x xs ih =>
    intro db res
    rw [List.foldl_cons]
    rcases hs : stepEntry ctx W db x with ⟨db', o⟩
    rw [ih db' (tally res o), tally_fetched]

/-- The no-matching-slot message always contains "no matching time slot"
case-insensitively, whatever the punch time rendering. -/
lemma noSlotMsg_insensitive (t : ℚ) :
    containsInsensitive ("No matching time slot for punch at " ++ hhmm t)
      "no matching time slot" = true := by
  unfold containsInsensitive
  apply decide_eq_true
  show lowerChars ("no matching time slot".toList)
    <:+: lowerChars (("No matching time slot for punch at " ++ hhmm t).toList)
  have h1 : ("No matching time slot for punch at " ++ hhmm t).toList
      = "No matching time slot for punch at ".toList ++ (hhmm t).toList := rfl
  rw [h1]
  unfold lowerChars
  rw [List.map_append]
  apply infix_append_left
  decide

/-- The local-time hour fraction always lies in [0, 24). -/
lemma currentHourOf_bounds (t tz : ℚ) :
    0 ≤ currentHourOf t tz ∧ currentHourOf t tz < 24 := by
  unfold currentHourOf
  constructor
  · have hm : (0 : ℤ) ≤ (⌊t + tz⌋ : ℤ).emod 86400 :=
      Int.emod_nonneg _ (by norm_num)
    exact div_nonneg (by exact_mod_cast hm) (by norm_num)
  · have hm2 : (⌊t + tz⌋ : ℤ).emod 86400 < 86400 :=
      Int.emod_lt_of_pos _ (by norm_num)
    rw [div_lt_iff₀ (by norm_num : (0 : ℚ) < 3600)]
    have : ((⌊t + tz⌋ : ℤ).emod 86400 : ℚ) < 86400 := by exact_mod_cast hm2
    linarith

/-! ## Claim theorems -/

/-- C1: after a reconciliation run (`process_raw_logs`) over any batch, every
employee still has at most one attendance session with null check-out, and
likewise after each single punch (`_process_punch`): a new session is created
only when no open session exists for that employee, so no processing step
produces a second concurrently-open session. -/
theorem C1_open_session_invariant (ctx : Ctx) (W : ℚ) (db : DB)
    (logs : List LogData) (hinv : OpenInv db) :
    OpenInv (process_raw_logs ctx W db logs).1 ∧
      ∀ logId, OpenInv (processPunch ctx db logId).1 :=
  ⟨openInv_process_raw_logs ctx W db logs hinv,
   fun logId => openInv_processPunch ctx db logId hinv⟩

/-- Closed witness for C1: a concrete two-punch batch on an initially empty
database keeps the invariant. -/
theorem C1_open_session_invariant_witness :
    OpenInv ({} : DB) ∧
      OpenInv (process_raw_logs
        ⟨7, 0, (fun s => if s = "B" then some 1 else none), (fun _ => none)⟩
        60 {} [⟨"B", some 1000, "0", ""⟩, ⟨"B", some 5000, "1", ""⟩]).1 := by
  have h0 : OpenInv ({} : DB) := fun e => Nat.zero_le 1
  exact ⟨h0,
    (C1_open_session_invariant
      ⟨7, 0, (fun s => if s = "B" then some 1 else none), (fun _ => none)⟩
      60 {} [⟨"B", some 1000, "0", ""⟩, ⟨"B", some 5000, "1", ""⟩] h0).1⟩

/-- C4 (bug at the claim's concrete scenario): for every completed session
carrying a shift policy, `_compute_status` assigns the final status as the
first matching rule in the fixed priority order auto_closed, half_day,
overtime, late, early_leave, on_time (with the rule conditions exactly as
computed by the source).  On the §8 scenario — policy {start 9.0, end 17.0,
late_after 15, half_day 4.0h, overtime_after 8.0h}, session 09:20→17:30
UTC, local = UTC — the spec's exact numeric semantics ("exact
elapsed-seconds/3600 floats, not rounded until final minute conversion")
give status overtime with overtime_minutes = 10, the late rule (which also
fired, late_minutes = 20) being outranked; but the program's float64
evaluation of `int((worked_hours - 8.0) * 60)` rounds the division
`29400.0/3600.0` to `4597424619607381/2^49` and truncates
`9.999999999999964` to 9: the last conjunct evaluates that float chain via
`nearestDyadic` and yields 9, not the claimed 10. -/
theorem C4_status_priority_overtime_bug :
    (∀ (es : Nat → Option Shift) (tz : ℚ) (a : Attendance) (co : ℚ) (s : Shift),
      a.check_out = some co → a.shift_id = some s →
      (statusFields es tz a).status = some (statusPriority
        [(containsStr a.note "Auto-closed", .auto_closed),
         (decide (workedHoursOf a.check_in co < s.half_day_hours), .half_day),
         (decide (0 < (if s.overtime_after_hours < workedHoursOf a.check_in co then
             pyTrunc ((workedHoursOf a.check_in co - s.overtime_after_hours) * 60)
           else 0)), .overtime),
         (decide (0 < (if (get_shift_boundaries s a.check_in tz).late_threshold
               < a.check_in then
             pyTrunc (max 0 ((a.check_in -
               (get_shift_boundaries s a.check_in tz).shift_start) / 60))
           else 0)), .late),
         (decide (0 < (if co < (get_shift_boundaries s a.check_in tz).early_leave_threshold then
             pyTrunc (max 0 (((get_shift_boundaries s a.check_in tz).shift_end - co) / 60))
           else 0)), .early_leave)])) ∧
    statusFields (fun _ => none) 0 attC4
      = { status := some .overtime, late_minutes := 20,
          early_leave_minutes := 0, overtime_minutes := 10 } ∧
    pyTrunc ((nearestDyadic 49 (workedHoursOf attC4.check_in 63000) - 8) * 60)
      = 9 := by
  refine ⟨?_, ?_, ?_⟩
  · intro es tz a co s hco hs
    unfold statusFields
    rw [hco]
    dsimp only
    rw [hs]
    dsimp only [Option.orElse]
    by_cases h1 : containsStr a.note "Auto-closed" = true
    · rw [if_pos h1]
      simp [statusPriority, h1, List.find?]
    · rw [if_neg h1]
      rw [Bool.not_eq_true] at h1
      dsimp only
      by_cases h2 : workedHoursOf a.check_in co < s.half_day_hours
      · rw [if_pos h2]
        simp [statusPriority, h1, h2, List.find?]
      · rw [if_neg h2]
        by_cases h3 : 0 < (if s.overtime_after_hours < workedHoursOf a.check_in co then
            pyTrunc ((workedHoursOf a.check_in co - s.overtime_after_hours) * 60)
          else 0)
        · rw [if_pos h3]
          simp [statusPriority, h1, h2, h3, List.find?]
        · rw [if_neg h3]
          by_cases h4 : 0 < (if (get_shift_boundaries s a.check_in tz).late_threshold
                < a.check_in then
              pyTrunc (max 0 ((a.check_in -
                (get_shift_boundaries s a.check_in tz).shift_start) / 60))
            else 0)
          · rw [if_pos h4]
            simp [statusPriority, h1, h2, h3, h4, List.find?]
          · rw [if_neg h4]
            by_cases h5 : 0 < (if co < (get_shift_boundaries s a.check_in tz).early_leave_threshold then
                pyTrunc (max 0 (((get_shift_boundaries s a.check_in tz).shift_end - co) / 60))
              else 0)
            · rw [if_pos h5]
              simp [statusPriority, h1, h2, h3, h4, h5, List.find?]
            · rw [if_neg h5]
              simp [statusPriority, h1, h2, h3, h4, h5, List.find?]
  · unfold statusFields attC4 shiftC4
    norm_num [containsStr, get_shift_boundaries, pyTrunc, workedHoursOf,
      Shift.is_night_shift, Option.orElse, Int.floor_eq_iff]
    decide
  · have hw : workedHoursOf attC4.check_in 63000 = 49 / 6 := by
      unfold workedHoursOf attC4
      norm_num
    rw [hw]
    have hval : nearestDyadic 49 (49 / 6) = 4597424619607381 / 2 ^ 49 := by
      unfold nearestDyadic
      dsimp only
      have hfloor : (⌊(49 / 6 : ℚ) * 2 ^ 49⌋ : ℤ) = 4597424619607381 := by
        norm_num [Int.floor_eq_iff]
      rw [hfloor]
      norm_num
    rw [hval]
    unfold pyTrunc
    norm_num [Int.floor_eq_iff]

/-- Closed witness for C4: the general priority statement instantiated on
the §8 status scenario. -/
theorem C4_status_priority_overtime_bug_witness :
    (statusFields (fun _ => none) 0 attC4).status = some (statusPriority
      [(containsStr attC4.note "Auto-closed", .auto_closed),
       (decide (workedHoursOf attC4.check_in 63000 < shiftC4.half_day_hours), .half_day),
       (decide (0 < (if shiftC4.overtime_after_hours < workedHoursOf attC4.check_in 63000 then
           pyTrunc ((workedHoursOf attC4.check_in 63000 - shiftC4.overtime_after_hours) * 60)
         else 0)), .overtime),
       (decide (0 < (if (get_shift_boundaries shiftC4 attC4.check_in 0).late_threshold
             < attC4.check_in then
           pyTrunc (max 0 ((attC4.check_in -
             (get_shift_boundaries shiftC4 attC4.check_in 0).shift_start) / 60))
         else 0)), .late),
       (decide (0 < (if (63000 : ℚ) < (get_shift_boundaries shiftC4 attC4.check_in 0).early_leave_threshold then
           pyTrunc (max 0 (((get_shift_boundaries shiftC4 attC4.check_in 0).shift_end - 63000) / 60))
         else 0)), .early_leave)]) :=
  C4_status_priority_overtime_bug.1 (fun _ => none) 0 attC4 63000 shiftC4 rfl rfl

/-- C2 counterexample: the claim says the auto-close checkout is clamped to
not exceed the punch timestamp minus one minute.  With an open session at
T = 0, `auto_checkout_after_hours = 20` and a punch at T + 20h + 30s
(72030s), the code closes at check_in + 20h = 72000s, which exceeds
punch − 1min = 71970s, refuting the claimed bound. -/
theorem C2_auto_close_counterexample :
    ((autoCloseStale ctxSh20 dbStale20 1 72030 20).1.attendances.map
        (·.check_out)) = [some 72000] ∧
      ¬((72000 : ℚ) ≤ 72030 - 60) := by
  constructor
  · norm_num [autoCloseStale, dbStale20, attStale, openAttendances, openFor,
      pickLatest, updateAtt]
  · norm_num

/-- C2 (amended): before classification, a stale open session — one whose
age strictly exceeds `auto_checkout_after_hours` — is auto-closed at
`check_in + auto_checkout_after_hours` unconditionally: that close time is
always strictly before the punch timestamp (so the code's pull-back to
punch − 1min can never fire, and no clamp to punch − 1min is applied), the
auto-close marker is appended to the stripped notes, and the status is
recomputed; and on the spec's §8 scenario (open session at T, punch at
T+21h, threshold 20h) the prior session is closed at T+20h and a new
session is opened at T+21h. -/
theorem C2_auto_close_amended :
    (∀ (ctx : Ctx) (db : DB) (emp : Nat) (t h : ℚ) (att : Attendance),
      (db.attendances.map (·.id)).Nodup →
      pickLatest (openAttendances db emp) = some att →
      h < (t - att.check_in) / 3600 →
      (autoCloseStale ctx db emp t h).2 = true ∧
      att.check_in + h * 3600 < t ∧
      findAtt (autoCloseStale ctx db emp t h).1 att.id
        = some (computeStatusFor ctx.empShift ctx.tz
            { att with check_out := some (att.check_in + h * 3600),
                       note := pyStrip (att.note ++ "\n" ++ autoCloseMarker h) }) ∧
      containsStr (pyStrip (att.note ++ "\n" ++ autoCloseMarker h))
        "Auto-closed" = true) ∧
    ((processPunch ctxSh20 dbStale20 1).1.attendances.map
        (fun a => (a.check_in, a.check_out)))
      = [((0 : ℚ), some (72000 : ℚ)), ((75600 : ℚ), none)] := by
  constructor
  · intro ctx db emp t h att hnd hp hstale
    have hlt : att.check_in + h * 3600 < t := by
      have := (lt_div_iff₀ (by norm_num : (0 : ℚ) < 3600)).mp hstale
      linarith
    have heq : autoCloseStale ctx db emp t h
        = (updateAtt db att.id (fun a => computeStatusFor ctx.empShift ctx.tz
            { a with check_out := some (att.check_in + h * 3600),
                     note := pyStrip (att.note ++ "\n" ++ autoCloseMarker h) }),
           true) := by
      unfold autoCloseStale
      rw [hp]
      dsimp only
      rw [if_pos hstale, if_neg (not_lt.mpr hlt.le)]
    refine ⟨by rw [heq], hlt, ?_, autoClosed_in_note att.note h⟩
    rw [heq]
    have hf := findAtt_updateAtt db att.id
      (fun a => computeStatusFor ctx.empShift ctx.tz
        { a with check_out := some (att.check_in + h * 3600),
                 note := pyStrip (att.note ++ "\n" ++ autoCloseMarker h) })
      (fun a => rfl)
    rw [hf, findAtt_of_pickLatest hnd hp]
    rfl
  · norm_num [processPunch, findLog, dbStale20, ctxSh20, shift20, attStale,
      resolveB, updateLog, autoCloseStale, openAttendances, openFor, pickLatest,
      processSimpleToggle, createAttendance, updateAtt, List.find?]

/-- Closed witness for C2 (amended), at the stale session of `dbStale20`
with a punch at T+21h and threshold 20h. -/
theorem C2_auto_close_amended_witness :
    (autoCloseStale ctxSh20 dbStale20 1 75600 20).2 = true ∧
    attStale.check_in + 20 * 3600 < (75600 : ℚ) ∧
    findAtt (autoCloseStale ctxSh20 dbStale20 1 75600 20).1 attStale.id
      = some (computeStatusFor ctxSh20.empShift ctxSh20.tz
          { attStale with check_out := some (attStale.check_in + 20 * 3600),
                          note := pyStrip (attStale.note ++ "\n" ++
                            autoCloseMarker 20) }) ∧
    containsStr (pyStrip (attStale.note ++ "\n" ++ autoCloseMarker 20))
      "Auto-closed" = true :=
  C2_auto_close_amended.1 ctxSh20 dbStale20 1 75600 20 attStale
    (by simp [dbStale20, attStale])
    rfl
    (by norm_num [attStale])

/-- C3: a batch entry is rejected as a duplicate — counted, with no session
mutation and no new raw-log record (the database is returned unchanged) —
whenever an exact (device, device_user, timestamp) match already exists, or
some existing punch of the same (device, device_user) within ±W seconds is
in state processed or pending; and on the spec's §8 scenario, two punches
(D,B,T) and (D,B,T+30s) with threshold 60s yield one processed check-in and
one duplicate, with a single raw log and a single session persisted. -/
theorem C3_deduplication :
    (∀ (ctx : Ctx) (W : ℚ) (db : DB) (e : LogData) (t : ℚ),
      ¬pyStrip e.device_user_id = "" → e.timestamp = some t →
      ((db.rawLogs.any (fun l =>
          l.device_id == ctx.deviceId && l.device_user_id == pyStrip e.device_user_id
            && l.timestamp == t)) = true ∨
       (db.rawLogs.any (fun l =>
          l.device_id == ctx.deviceId && l.device_user_id == pyStrip e.device_user_id
            && decide (t - W ≤ l.timestamp) && decide (l.timestamp ≤ t + W)
            && (l.state == LogState.processed || l.state == LogState.pending)))
          = true) →
      stepEntry ctx W db e = (db, .dupEntry)) ∧
    (process_raw_logs ctxPlain 60 {} batchDup).2
      = { fetched := 2, processed := 1, failed := 0, duplicates := 1,
          ignored := 0 } ∧
    (process_raw_logs ctxPlain 60 {} batchDup).1.rawLogs.length = 1 ∧
    (process_raw_logs ctxPlain 60 {} batchDup).1.attendances.length = 1 := by
  refine ⟨?_, ?_, ?_, ?_⟩
  · intro ctx W db e t h1 ht hdup
    unfold stepEntry
    rw [if_neg h1, ht]
    dsimp only
    by_cases hex : (db.rawLogs.any (fun l =>
        l.device_id == ctx.deviceId && l.device_user_id == pyStrip e.device_user_id
          && l.timestamp == t)) = true
    · rw [if_pos hex]
    · rw [if_neg hex]
      rcases hdup with h | h
      · exact absurd h hex
      · rw [if_pos h]
  · rw [processB_eval]
  · rw [processB_eval]
    decide
  · rw [processB_eval]
    decide

/-- Closed witness for C3: the near-duplicate rejection at a concrete
database holding a processed punch 30s before the candidate. -/
theorem C3_deduplication_witness :
    stepEntry ctxPlain 60
      { rawLogs := [{ id := 1, device_id := 7, device_user_id := "B",
                      timestamp := 1000, state := .processed }],
        nextLogId := 2 }
      ⟨"B", some 1030, "0", ""⟩
      = ({ rawLogs := [{ id := 1, device_id := 7, device_user_id := "B",
                         timestamp := 1000, state := .processed }],
           nextLogId := 2 }, .dupEntry) :=
  C3_deduplication.1 ctxPlain 60
    { rawLogs := [{ id := 1, device_id := 7, device_user_id := "B",
                    timestamp := 1000, state := .processed }],
      nextLogId := 2 }
    ⟨"B", some 1030, "0", ""⟩ 1030
    (by decide) rfl
    (Or.inr (by norm_num [ctxPlain, List.any, pyStrip_B]))

/-- C10: a batch entry whose device_user_id is empty after stripping, or
whose timestamp is missing, is counted as failed and the loop continues:
the database is returned unchanged (no raw log, no session mutation), and
the batch result's `fetched` still counts every entry of the raw batch. -/
theorem C10_invalid_entries_failed :
    (∀ (ctx : Ctx) (W : ℚ) (db : DB) (e : LogData),
      (pyStrip e.device_user_id = "" ∨ e.timestamp = none) →
      stepEntry ctx W db e = (db, .failedEntry)) ∧
    (∀ (ctx : Ctx) (W : ℚ) (db : DB) (logs : List LogData),
      (process_raw_logs ctx W db logs).2.fetched = logs.length) := by
  constructor
  · intro ctx W db e h
    unfold stepEntry
    by_cases h1 : pyStrip e.device_user_id = ""
    · rw [if_pos h1]
    · rw [if_neg h1]
      rcases h with h | h
      · exact absurd h h1
      · rw [h]
  · intro ctx W db logs
    unfold process_raw_logs
    exact foldl_fetched ctx W (sortBatch logs) db { fetched := logs.length }

/-- Closed witness for C10: an entry with a whitespace-only badge and an
entry with no timestamp are both failed without touching the database. -/
theorem C10_invalid_entries_failed_witness :
    stepEntry ctxPlain 60 dbAfterB1 ⟨" ", some 1000, "0", ""⟩
      = (dbAfterB1, .failedEntry) ∧
    stepEntry ctxPlain 60 dbAfterB1 ⟨"B", none, "0", ""⟩
      = (dbAfterB1, .failedEntry) :=
  ⟨C10_invalid_entries_failed.1 ctxPlain 60 dbAfterB1 ⟨" ", some 1000, "0", ""⟩
      (Or.inl (by decide)),
   C10_invalid_entries_failed.1 ctxPlain 60 dbAfterB1 ⟨"B", none, "0", ""⟩
      (Or.inr rfl)⟩

/-- C7: the minimum-gap guard, in both modes.  For a toggle punch against an
open session, and for a slot-mode check-out against an open session, when
fewer than `min_punch_gap_minutes` minutes have elapsed since the session's
check-in, the punch is marked ignored with the too-soon gap message, and the
attendance table is left entirely unchanged — the session stays open with
all fields intact. -/
theorem C7_minimum_gap_guard :
    (∀ (ctx : Ctx) (db : DB) (logId emp : Nat) (t : ℚ) (shift : Option Shift)
       (minGap : ℚ) (att : Attendance) (log : RawLog),
      pickLatest (openAttendances db emp) = some att →
      (t - att.check_in) / 3600 * 60 < minGap →
      findLog db logId = some log →
      (processSimpleToggle ctx db logId emp t shift minGap).2
        = { ignored := true } ∧
      (processSimpleToggle ctx db logId emp t shift minGap).1.attendances
        = db.attendances ∧
      findLog (processSimpleToggle ctx db logId emp t shift minGap).1 logId
        = some { log with
                 state := .ignored, punch_type := "0",
                 message := some ("Ignored: Only " ++
                   numStr ((t - att.check_in) / 3600 * 60) ++
                   " min since check-in (min: " ++ numStr minGap ++ " min)") }) ∧
    (∀ (ctx : Ctx) (db : DB) (logId : Nat) (t : ℚ) (minGap : ℚ)
       (att : Attendance) (log : RawLog),
      (t - att.check_in) / 3600 * 60 < minGap →
      findLog db logId = some log →
      (slotCheckOut ctx db logId t (some att) minGap).2 = { ignored := true } ∧
      (slotCheckOut ctx db logId t (some att) minGap).1.attendances
        = db.attendances ∧
      findLog (slotCheckOut ctx db logId t (some att) minGap).1 logId
        = some { log with
                 state := .ignored,
                 message := some ("Ignored: Only " ++
                   numStr ((t - att.check_in) / 3600 * 60) ++
                   " min since check-in") }) := by
  constructor
  · intro ctx db logId emp t shift minGap att log hp hgap hlog
    have heq : processSimpleToggle ctx db logId emp t shift minGap
        = (updateLog db logId (fun l =>
            { l with state := .ignored, punch_type := "0",
                     message := some ("Ignored: Only " ++
                       numStr ((t - att.check_in) / 3600 * 60) ++
                       " min since check-in (min: " ++ numStr minGap ++ " min)") }),
           { ignored := true }) := by
      unfold processSimpleToggle
      rw [hp]
      dsimp only
      rw [if_pos hgap]
    rw [heq]
    refine ⟨rfl, rfl, ?_⟩
    refine findLog_updateLog_at ?_ hlog
    exact fun l => rfl
  · intro ctx db logId t minGap att log hgap hlog
    have heq : slotCheckOut ctx db logId t (some att) minGap
        = (updateLog db logId (fun l =>
            { l with state := .ignored,
                     message := some ("Ignored: Only " ++
                       numStr ((t - att.check_in) / 3600 * 60) ++
                       " min since check-in") }),
           { ignored := true }) := by
      unfold slotCheckOut
      dsimp only
      rw [if_pos hgap]
    rw [heq]
    refine ⟨rfl, rfl, ?_⟩
    refine findLog_updateLog_at ?_ hlog
    exact fun l => rfl

/-- Closed witness for C7: a punch 30 seconds after the open check-in with a
1-minute gap is ignored in both modes, leaving the sessions untouched. -/
theorem C7_minimum_gap_guard_witness :
    ((processSimpleToggle ctxPlain dbStale20 1 1 30 none 1).2
        = { ignored := true } ∧
      (processSimpleToggle ctxPlain dbStale20 1 1 30 none 1).1.attendances
        = dbStale20.attendances ∧
      findLog (processSimpleToggle ctxPlain dbStale20 1 1 30 none 1).1 1
        = some { (⟨1, 7, "B", 75600, "0", .pending, none, none, none, ""⟩ : RawLog) with
                 state := .ignored, punch_type := "0",
                 message := some ("Ignored: Only " ++ numStr (((30 : ℚ) - attStale.check_in) / 3600 * 60) ++ " min since check-in (min: " ++ numStr 1 ++ " min)") }) ∧
    ((slotCheckOut ctxPlain dbStale20 1 30 (some attStale) 1).2
        = { ignored := true } ∧
      (slotCheckOut ctxPlain dbStale20 1 30 (some attStale) 1).1.attendances
        = dbStale20.attendances ∧
      findLog (slotCheckOut ctxPlain dbStale20 1 30 (some attStale) 1).1 1
        = some { (⟨1, 7, "B", 75600, "0", .pending, none, none, none, ""⟩ : RawLog) with
                 state := .ignored,
                 message := some ("Ignored: Only " ++ numStr (((30 : ℚ) - attStale.check_in) / 3600 * 60) ++ " min since check-in") }) :=
  ⟨C7_minimum_gap_guard.1 ctxPlain dbStale20 1 1 30 none 1 attStale
      ⟨1, 7, "B", 75600, "0", .pending, none, none, none, ""⟩
      rfl (by norm_num [attStale]) rfl,
   C7_minimum_gap_guard.2 ctxPlain dbStale20 1 30 1 attStale
      ⟨1, 7, "B", 75600, "0", .pending, none, none, none, ""⟩
      (by norm_num [attStale]) rfl⟩

/-- C8 counterexample: a slot-mode check-in punch arriving while a non-stale
session is open is surfaced with punch state `ignored`, not `error`, so the
claim's "error state" is wrong (though the conflict is detected and the open
session is left intact). -/
theorem C8_conflict_counterexample :
    (findLog (processPunch ctxSlot dbSlot8 1).1 1).map (·.state)
        = some .ignored ∧
      LogState.ignored ≠ LogState.error ∧
      (processPunch ctxSlot dbSlot8 1).1.attendances = dbSlot8.attendances := by
  refine ⟨?_, by decide, ?_⟩ <;>
    norm_num [processPunch, findLog, dbSlot8, ctxSlot, shiftSlotMode,
      slotCheckInWindow, resolveB, attStale, updateLog, autoCloseStale,
      openAttendances, openFor, pickLatest, processWithSlots, getSlotPunchType,
      sortedActiveSlots, PunchSlot.is_time_in_window, currentHourOf,
      slotCheckIn, List.find?, List.insertionSort, List.orderedInsert,
      Int.floor_eq_iff, List.filter]

/-- C8 (amended): a slot-mode check-in punch that arrives while an open
session exists is detected and surfaced on the punch record as state
`ignored` with an "Already checked in" message, and the existing open
session is not overwritten — the attendance table is unchanged. -/
theorem C8_conflict_amended (ctx : Ctx) (db : DB) (logId emp : Nat) (t : ℚ)
    (shift : Shift) (att : Attendance) (log : RawLog)
    (hlog : findLog db logId = some log) :
    (slotCheckIn ctx db logId emp t shift (some att)).2 = { ignored := true } ∧
    (slotCheckIn ctx db logId emp t shift (some att)).1.attendances
      = db.attendances ∧
    findLog (slotCheckIn ctx db logId emp t shift (some att)).1 logId
      = some { log with
               state := .ignored,
               message := some ("Already checked in at " ++ hhmm att.check_in ++
                 ".Use Check Out slot.") } := by
  unfold slotCheckIn
  refine ⟨rfl, rfl, ?_⟩
  refine findLog_updateLog_at ?_ hlog
  exact fun l => rfl

/-- Closed witness for C8 (amended) on the `dbSlot8` fixture. -/
theorem C8_conflict_amended_witness :
    (slotCheckIn ctxSlot dbSlot8 1 1 3600 shiftSlotMode (some attStale)).2
      = { ignored := true } ∧
    (slotCheckIn ctxSlot dbSlot8 1 1 3600 shiftSlotMode (some attStale)).1.attendances
      = dbSlot8.attendances ∧
    findLog (slotCheckIn ctxSlot dbSlot8 1 1 3600 shiftSlotMode (some attStale)).1 1
      = some { (⟨1, 7, "B", 3600, "0", .pending, none, none, none, ""⟩ : RawLog) with
               state := .ignored,
               message := some ("Already checked in at " ++ hhmm attStale.check_in ++
                 ".Use Check Out slot.") } :=
  C8_conflict_amended ctxSlot dbSlot8 1 1 3600 shiftSlotMode attStale
    ⟨1, 7, "B", 3600, "0", .pending, none, none, none, ""⟩ rfl

/-- C5: slot-mode classification.  (a) A window with `time_to < time_from`
wraps past midnight: it matches exactly the local hours in
[time_from, 24) ∪ [0, time_to] (the local hour always lies in [0, 24));
(b) slots are evaluated in ascending sequence order — the candidate list is
sorted by sequence and is a permutation of the active slots — and the first
match wins (`List.find?`); (c) when no slot matches, the punch is set to
state ignored with a message containing "no matching time slot"
(case-insensitively), the attendance table is untouched, and no toggle
fallback happens whatever open session exists. -/
theorem C5_slot_classification :
    (∀ (slot : PunchSlot) (t tz : ℚ), slot.time_to < slot.time_from →
      (slot.is_time_in_window t tz = true ↔
        (slot.time_from ≤ currentHourOf t tz ∨ currentHourOf t tz ≤ slot.time_to)) ∧
      0 ≤ currentHourOf t tz ∧ currentHourOf t tz < 24) ∧
    (∀ shift : Shift,
      List.Sorted (fun a b => a.sequence ≤ b.sequence) (sortedActiveSlots shift) ∧
      (sortedActiveSlots shift).Perm (shift.punch_slot_ids.filter (·.active)) ∧
      (shift.punch_slot_ids ≠ [] → ∀ t tz : ℚ,
        getSlotPunchType shift t tz
          = ((sortedActiveSlots shift).find?
              (fun sl => sl.is_time_in_window t tz)).map (·.punch_type))) ∧
    (∀ (ctx : Ctx) (db : DB) (logId emp : Nat) (t : ℚ) (shift : Shift)
       (minGap : ℚ) (log : RawLog),
      getSlotPunchType shift t ctx.tz = none →
      findLog db logId = some log →
      (processWithSlots ctx db logId emp t shift minGap).2 = { ignored := true } ∧
      (processWithSlots ctx db logId emp t shift minGap).1.attendances
        = db.attendances ∧
      findLog (processWithSlots ctx db logId emp t shift minGap).1 logId
        = some { log with
                 state := .ignored,
                 message := some ("No matching time slot for punch at " ++ hhmm t) } ∧
      containsInsensitive ("No matching time slot for punch at " ++ hhmm t)
        "no matching time slot" = true) := by
  refine ⟨?_, ?_, ?_⟩
  · intro slot t tz hwrap
    refine ⟨?_, currentHourOf_bounds t tz⟩
    unfold PunchSlot.is_time_in_window
    rw [if_pos hwrap.le]
    simp
  · intro shift
    refine ⟨List.sorted_insertionSort _ _, List.perm_insertionSort _ _, ?_⟩
    intro hne t tz
    unfold getSlotPunchType
    rw [if_neg hne]
  · intro ctx db logId emp t shift minGap log hslot hlog
    have heq : processWithSlots ctx db logId emp t shift minGap
        = (updateLog db logId (fun l =>
            { l with state := .ignored,
                     message := some ("No matching time slot for punch at " ++
                       hhmm t) }),
           { ignored := true }) := by
      unfold processWithSlots
      rw [hslot]
    rw [heq]
    refine ⟨rfl, rfl, ?_, noSlotMsg_insensitive t⟩
    refine findLog_updateLog_at ?_ hlog
    exact fun l => rfl

/-- Closed witness for C5: the night window 22:00→06:00 wraps; a 13:00 punch
matches no slot of the single-window shift and is ignored with the
"no matching time slot" message, with sessions untouched. -/
theorem C5_slot_classification_witness :
    ((({ sequence := 10, punch_type := "1", time_from := 22,
         time_to := 6 } : PunchSlot).is_time_in_window 46800 0 = true ↔
       ((22 : ℚ) ≤ currentHourOf 46800 0 ∨ currentHourOf 46800 0 ≤ 6)) ∧
      0 ≤ currentHourOf 46800 0 ∧ currentHourOf 46800 0 < 24) ∧
    ((processWithSlots ctxSlot dbSlot8 1 1 46800 shiftSlotMode 1).2
        = { ignored := true } ∧
      (processWithSlots ctxSlot dbSlot8 1 1 46800 shiftSlotMode 1).1.attendances
        = dbSlot8.attendances ∧
      findLog (processWithSlots ctxSlot dbSlot8 1 1 46800 shiftSlotMode 1).1 1
        = some { (⟨1, 7, "B", 3600, "0", .pending, none, none, none, ""⟩ : RawLog) with
                 state := .ignored,
                 message := some ("No matching time slot for punch at " ++ hhmm 46800) } ∧
      containsInsensitive ("No matching time slot for punch at " ++ hhmm 46800)
        "no matching time slot" = true) :=
  ⟨C5_slot_classification.1
      { sequence := 10, punch_type := "1", time_from := 22, time_to := 6 }
      46800 0 (by norm_num),
   C5_slot_classification.2.2 ctxSlot dbSlot8 1 1 46800 shiftSlotMode 1
      ⟨1, 7, "B", 3600, "0", .pending, none, none, none, ""⟩
      (by norm_num [getSlotPunchType, sortedActiveSlots, shiftSlotMode,
        slotCheckInWindow, List.insertionSort, List.orderedInsert, List.filter,
        List.find?, PunchSlot.is_time_in_window, currentHourOf, ctxSlot,
        Int.floor_eq_iff])
      rfl⟩

/-- C9: the note-marker state machines for break and overtime punches in
slot mode, against an open session.  Break-out is rejected as ignored
exactly when the count of break-out markers exceeds the count of break-in
markers; break-in is rejected exactly in the inverse case (break-outs not
exceeding break-ins); overtime-start/end mirror this with the OT marker
pair.  Every rejection records its human-readable reason on the punch and
leaves the attendance table unmutated. -/
theorem C9_marker_state_machines :
    (∀ (ctx : Ctx) (db : DB) (logId : Nat) (t : ℚ) (att : Attendance)
       (log : RawLog), findLog db logId = some log →
      ((slotBreakOut ctx db logId t (some att)).2.ignored = true ↔
        countOcc "Break In:" att.note < countOcc "Break Out: " att.note) ∧
      (countOcc "Break In:" att.note < countOcc "Break Out: " att.note →
        (slotBreakOut ctx db logId t (some att)).1.attendances = db.attendances ∧
        findLog (slotBreakOut ctx db logId t (some att)).1 logId
          = some { log with
                   state := .ignored,
                   message := some "Break Out ignored: Already on break. Please clock back in first." })) ∧
    (∀ (ctx : Ctx) (db : DB) (logId : Nat) (t : ℚ) (att : Attendance)
       (log : RawLog), findLog db logId = some log →
      ((slotBreakIn ctx db logId t (some att)).2.ignored = true ↔
        countOcc "Break Out:" att.note ≤ countOcc "Break In:" att.note) ∧
      (countOcc "Break Out:" att.note ≤ countOcc "Break In:" att.note →
        (slotBreakIn ctx db logId t (some att)).1.attendances = db.attendances ∧
        findLog (slotBreakIn ctx db logId t (some att)).1 logId
          = some { log with
                   state := .ignored,
                   message := some "Break In ignored: Not on break.Please clock out for break first." })) ∧
    (∀ (ctx : Ctx) (db : DB) (logId : Nat) (t : ℚ) (att : Attendance)
       (log : RawLog), findLog db logId = some log →
      ((slotOvertimeStart ctx db logId t (some att)).2.ignored = true ↔
        countOcc "OT End:" att.note < countOcc "OT Start:" att.note) ∧
      (countOcc "OT End:" att.note < countOcc "OT Start:" att.note →
        (slotOvertimeStart ctx db logId t (some att)).1.attendances = db.attendances ∧
        findLog (slotOvertimeStart ctx db logId t (some att)).1 logId
          = some { log with
                   state := .ignored,
                   message := some "Overtime Start ignored: Already in overtime session." })) ∧
    (∀ (ctx : Ctx) (db : DB) (logId : Nat) (t : ℚ) (att : Attendance)
       (log : RawLog), findLog db logId = some log →
      ((slotOvertimeEnd ctx db logId t (some att)).2.ignored = true ↔
        countOcc "OT Start:" att.note ≤ countOcc "OT End:" att.note) ∧
      (countOcc "OT Start:" att.note ≤ countOcc "OT End:" att.note →
        (slotOvertimeEnd ctx db logId t (some att)).1.attendances = db.attendances ∧
        findLog (slotOvertimeEnd ctx db logId t (some att)).1 logId
          = some { log with
                   state := .ignored,
                   message := some "Overtime End ignored: No overtime started." })) := by
  refine ⟨?_, ?_, ?_, ?_⟩
  · intro ctx db logId t att log hlog
    by_cases hc : countOcc "Break In:" att.note < countOcc "Break Out: " att.note
    · have heq : slotBreakOut ctx db logId t (some att)
          = (updateLog db logId (fun l =>
              { l with state := .ignored,
                       message := some "Break Out ignored: Already on break. Please clock back in first." }),
             { ignored := true }) := by
        unfold slotBreakOut
        dsimp only
        rw [if_pos hc]
      rw [heq]
      refine ⟨by simp [hc], fun _ => ⟨rfl, ?_⟩⟩
      refine findLog_updateLog_at ?_ hlog
      exact fun l => rfl
    · have heq : (slotBreakOut ctx db logId t (some att)).2
          = { success := true, attendance := some att.id } := by
        unfold slotBreakOut
        dsimp only
        rw [if_neg hc]
      refine ⟨by rw [heq]; simp [hc], fun h => absurd h hc⟩
  · intro ctx db logId t att log hlog
    by_cases hc : countOcc "Break Out:" att.note ≤ countOcc "Break In:" att.note
    · have heq : slotBreakIn ctx db logId t (some att)
          = (updateLog db logId (fun l =>
              { l with state := .ignored,
                       message := some "Break In ignored: Not on break.Please clock out for break first." }),
             { ignored := true }) := by
        unfold slotBreakIn
        dsimp only
        rw [if_pos hc]
      rw [heq]
      refine ⟨by simp [hc], fun _ => ⟨rfl, ?_⟩⟩
      refine findLog_updateLog_at ?_ hlog
      exact fun l => rfl
    · have heq : (slotBreakIn ctx db logId t (some att)).2
          = { success := true, attendance := some att.id } := by
        unfold slotBreakIn
        dsimp only
        rw [if_neg hc]
      refine ⟨by rw [heq]; simp [hc], fun h => absurd h hc⟩
  · intro ctx db logId t att log hlog
    by_cases hc : countOcc "OT End:" att.note < countOcc "OT Start:" att.note
    · have heq : slotOvertimeStart ctx db logId t (some att)
          = (updateLog db logId (fun l =>
              { l with state := .ignored,
                       message := some "Overtime Start ignored: Already in overtime session." }),
             { ignored := true }) := by
        unfold slotOvertimeStart
        dsimp only
        rw [if_pos hc]
      rw [heq]
      refine ⟨by simp [hc], fun _ => ⟨rfl, ?_⟩⟩
      refine findLog_updateLog_at ?_ hlog
      exact fun l => rfl
    · have heq : (slotOvertimeStart ctx db logId t (some att)).2
          = { success := true, attendance := some att.id } := by
        unfold slotOvertimeStart
        dsimp only
        rw [if_neg hc]
      refine ⟨by rw [heq]; simp [hc], fun h => absurd h hc⟩
  · intro ctx db logId t att log hlog
    by_cases hc : countOcc "OT Start:" att.note ≤ countOcc "OT End:" att.note
    · have heq : slotOvertimeEnd ctx db logId t (some att)
          = (updateLog db logId (fun l =>
              { l with state := .ignored,
                       message := some "Overtime End ignored: No overtime started." }),
             { ignored := true }) := by
        unfold slotOvertimeEnd
        dsimp only
        rw [if_pos hc]
      rw [heq]
      refine ⟨by simp [hc], fun _ => ⟨rfl, ?_⟩⟩
      refine findLog_updateLog_at ?_ hlog
      exact fun l => rfl
    · have heq : (slotOvertimeEnd ctx db logId t (some att)).2
          = { success := true, attendance := some att.id } := by
        unfold slotOvertimeEnd
        dsimp only
        rw [if_neg hc]
      refine ⟨by rw [heq]; simp [hc], fun h => absurd h hc⟩

/-- Closed witness for C9: with a session whose note holds one open
break-out marker, a second break-out is rejected and the sessions stay
untouched; an overtime-end without any OT markers is likewise rejected. -/
theorem C9_marker_state_machines_witness :
    (((slotBreakOut ctxPlain dbStale20 1 36000
        (some { attStale with note := "Break Out: 09:00" })).2.ignored = true ↔
      countOcc "Break In:" "Break Out: 09:00" < countOcc "Break Out: " "Break Out: 09:00") ∧
      (countOcc "Break In:" "Break Out: 09:00" < countOcc "Break Out: " "Break Out: 09:00" →
        (slotBreakOut ctxPlain dbStale20 1 36000
          (some { attStale with note := "Break Out: 09:00" })).1.attendances
            = dbStale20.attendances ∧
        findLog (slotBreakOut ctxPlain dbStale20 1 36000
          (some { attStale with note := "Break Out: 09:00" })).1 1
          = some { (⟨1, 7, "B", 75600, "0", .pending, none, none, none, ""⟩ : RawLog) with
                   state := .ignored,
                   message := some "Break Out ignored: Already on break. Please clock back in first." })) ∧
    ((slotOvertimeEnd ctxPlain dbStale20 1 36000 (some attStale)).2.ignored = true ↔
      countOcc "OT Start:" attStale.note ≤ countOcc "OT End:" attStale.note) :=
  ⟨C9_marker_state_machines.1 ctxPlain dbStale20 1 36000
      { attStale with note := "Break Out: 09:00" }
      ⟨1, 7, "B", 75600, "0", .pending, none, none, none, ""⟩ rfl,
   (C9_marker_state_machines.2.2.2 ctxPlain dbStale20 1 36000 attStale
      ⟨1, 7, "B", 75600, "0", .pending, none, none, none, ""⟩ rfl).1⟩

/-- C6 counterexample: `action_reprocess` filters the selection to states
pending/error/ignored, so a punch already in state `processed` is skipped
outright — it is not reset to pending and its derived links are not
cleared, refuting the claimed mechanism.  (The database comes back
identical, so reprocessing a processed punch trivially leaves session state
and classification unchanged.) -/
theorem C6_reprocess_counterexample :
    action_reprocess ctxPlain dbAfterB1 [1] = (dbAfterB1, 0, 0) ∧
    (findLog (action_reprocess ctxPlain dbAfterB1 [1]).1 1).map (·.state)
      = some .processed ∧
    (findLog (action_reprocess ctxPlain dbAfterB1 [1]).1 1).map (·.message)
      = some (some "Check-in created") ∧
    (findLog (action_reprocess ctxPlain dbAfterB1 [1]).1 1).map (·.attendance_id)
      = some (some 1) := by
  refine ⟨?_, ?_, ?_, ?_⟩ <;> decide

/-- C6 (amended): `action_reprocess` skips punches in state `processed`
entirely (database unchanged, nothing counted), so re-running it on an
already-processed punch converges trivially to the same session state and
classification; punches in state pending, error or ignored are first reset
to pending with message and attendance link cleared, and only then re-run
through the pipeline. -/
theorem C6_reprocess_amended :
    (∀ (ctx : Ctx) (db : DB) (id : Nat) (log : RawLog),
      findLog db id = some log → log.state = .processed →
      action_reprocess ctx db [id] = (db, 0, 0)) ∧
    (∀ (ctx : Ctx) (db : DB) (id : Nat) (log : RawLog),
      findLog db id = some log →
      (log.state = .pending ∨ log.state = .error ∨ log.state = .ignored) →
      findLog (updateLog db id (fun l =>
          { l with state := .pending, message := none, attendance_id := none })) id
        = some { log with state := .pending, message := none,
                          attendance_id := none } ∧
      (action_reprocess ctx db [id]).1
        = (processPunch ctx (updateLog db id (fun l =>
            { l with state := .pending, message := none,
                     attendance_id := none })) id).1) := by
  constructor
  · intro ctx db id log hlog hstate
    unfold action_reprocess
    rw [List.foldl_cons]
    dsimp only
    rw [hlog]
    dsimp only
    rw [if_neg (by simp [hstate])]
    rw [List.foldl_nil]
  · intro ctx db id log hlog hstate
    constructor
    · refine findLog_updateLog_at ?_ hlog
      exact fun l => rfl
    · unfold action_reprocess
      rw [List.foldl_cons]
      dsimp only
      rw [hlog]
      dsimp only
      rw [if_pos (by rcases hstate with h | h | h <;> simp [h])]
      rcases hpp : processPunch ctx (updateLog db id (fun l =>
          { l with state := .pending, message := none,
                   attendance_id := none })) id with ⟨db2, r⟩
      dsimp only
      split
      · rfl
      · split
        · rfl
        · rfl

/-- Closed witness for C6 (amended): the processed punch of `dbAfterB1` is
skipped, and an ignored punch is reset before re-running. -/
theorem C6_reprocess_amended_witness :
    action_reprocess ctxPlain dbAfterB1 [1] = (dbAfterB1, 0, 0) ∧
    findLog (updateLog dbStale20 1 (fun l =>
        { l with state := .pending, message := none, attendance_id := none })) 1
      = some { (⟨1, 7, "B", 75600, "0", .pending, none, none, none, ""⟩ : RawLog) with
               state := .pending, message := none, attendance_id := none } :=
  ⟨C6_reprocess_amended.1 ctxPlain dbAfterB1 1
      ⟨1, 7, "B", 1000, "0", .processed, some 1, some 1,
        some "Check-in created", ""⟩ rfl rfl,
   (C6_reprocess_amended.2 ctxPlain dbStale20 1
      ⟨1, 7, "B", 75600, "0", .pending, none, none, none, ""⟩ rfl
      (Or.inl rfl)).1⟩
